import Mathlib

/-
Verification of the configuration-resolution and rendering pipeline of the
wfs_input_generator repository.

The Python sources are shallowly embedded:

* Python values that occur in configurations are modelled by the inductive
  type `Value`; Python's `int`, `float`, `bool` and `str` constructors, used
  as schema coercion functions, are modelled by functions
  `Value → Option Value` where `none` models a raised exception.
* Python `float` numbers are modelled by exact rationals (`ℚ`).  All
  float values that the proved statements touch are decimal fractions far
  below the precision of IEEE doubles, where binary rounding does not
  change any printed digit.  The one genuinely transcendental computation,
  the moment-magnitude derivation, is modelled over `ℝ` separately
  (`specfemM0R`, `specfemMagnitudeR`).
* `dict`s are association lists (`List (String × Value)`); assignment
  updates the first binding with the key or appends a new one.
* A raised exception is an `Except.error`; the carried messages follow the
  source strings.
-/

set_option maxRecDepth 100000

/-- A Python value as it can occur in a configuration dictionary of the
input file generator: ints, floats (modelled as exact rationals), bools,
strings and lists. -/
inductive Value where
  | int (i : Int)
  | float (q : ℚ)
  | bool (b : Bool)
  | str (s : String)
  | list (elems : List Value)

/-- Digits of a natural number, most significant first.  The first argument
is recursion fuel; every caller passes at least 60, enough for every number
of at most 60 digits (all numbers in this development are far smaller). -/
def natDigitsAux : Nat → Nat → List Char → List Char
  | 0, _, acc => acc
  | fuel + 1, n, acc =>
    let acc2 := Char.ofNat (48 + n % 10) :: acc
    if n / 10 = 0 then acc2 else natDigitsAux fuel (n / 10) acc2

/-- Decimal rendering of a natural number. -/
def natToString (n : Nat) : String := ⟨natDigitsAux 60 n []⟩

/-- Decimal rendering of an integer, as Python prints an `int`. -/
def intDecimal (i : Int) : String :=
  if i < 0 then "-" ++ natToString (-i).toNat else natToString i.toNat

/-- Value of a string of ASCII digits. -/
def digitsToNat (s : String) : Nat :=
  s.foldl (fun n c => 10 * n + (c.toNat - 48)) 0

/-- Python `int(s)` on a string: optional surrounding whitespace, optional
sign, then decimal digits; anything else raises. -/
def parseIntStr (s : String) : Option Int :=
  let t := s.trim
  let (sign, digits) :=
    if t.startsWith "-" then ((-1 : Int), t.drop 1)
    else if t.startsWith "+" then ((1 : Int), t.drop 1)
    else ((1 : Int), t)
  if digits.length > 0 && digits.all Char.isDigit then
    some (sign * (digitsToNat digits : Int))
  else none

/-- The mantissa part of Python `float(s)`: `digits`, `digits.digits`,
`digits.` or `.digits`. -/
def parseMantissa (t : String) : Option ℚ :=
  match t.splitOn "." with
  | [a] =>
    if a.length > 0 && a.all Char.isDigit then some (digitsToNat a : ℚ) else none
  | [a, b] =>
    if (a.length > 0 || b.length > 0) && a.all Char.isDigit && b.all Char.isDigit
    then some ((digitsToNat a : ℚ) + (digitsToNat b : ℚ) / (10 : ℚ) ^ b.length)
    else none
  | _ => none

/-- Python `float(s)` on a string: optional surrounding whitespace and sign,
a decimal mantissa and an optional decimal exponent. -/
def parseFloatStr (s : String) : Option ℚ :=
  let t := s.trim
  let (sign, body) :=
    if t.startsWith "-" then ((-1 : ℚ), t.drop 1)
    else if t.startsWith "+" then ((1 : ℚ), t.drop 1)
    else ((1 : ℚ), t)
  let withExp : String → String → Option ℚ := fun m e =>
    match parseMantissa m, parseIntStr e with
    | some q, some ex =>
      some (sign * q * (if 0 ≤ ex then (10 : ℚ) ^ ex.toNat else 1 / (10 : ℚ) ^ (-ex).toNat))
    | _, _ => none
  match body.splitOn "e" with
  | [_] =>
    match body.splitOn "E" with
    | [m2] => (parseMantissa m2).map (fun q => sign * q)
    | [m2, e2] => withExp m2 e2
    | _ => none
  | [m, e] => withExp m e
  | _ => none

/-- Python `int(x)` as a schema coercion function; `none` models a raised
exception.  `int` of a float truncates toward zero. -/
def pyInt : Value → Option Value
  | .int i => some (.int i)
  | .float q => some (.int (q.num / (q.den : Int)))
  | .bool b => some (.int (if b then 1 else 0))
  | .str s => (parseIntStr s).map .int
  | .list _ => none

/-- Python `float(x)` as a schema coercion function. -/
def pyFloat : Value → Option Value
  | .int i => some (.float (i : ℚ))
  | .float q => some (.float q)
  | .bool b => some (.float (if b then 1 else 0))
  | .str s => (parseFloatStr s).map .float
  | .list _ => none

/-- Python `float(x)` returning the rational directly (used by the station
collection code, which stores the float rather than a `Value`). -/
def pyFloatQ : Value → Option ℚ
  | .int i => some (i : ℚ)
  | .float q => some q
  | .bool b => some (if b then 1 else 0)
  | .str s => parseFloatStr s
  | .list _ => none

/-- Python `bool(x)` as a schema coercion function: truthiness, never
raises. -/
def pyBool : Value → Option Value
  | .int i => some (.bool (decide (i ≠ 0)))
  | .float q => some (.bool (decide (q ≠ 0)))
  | .bool b => some (.bool b)
  | .str s => some (.bool (decide (s ≠ "")))
  | .list l => some (.bool (!l.isEmpty))

/-- Largest power of ten at most `x`, for `x > 0`: the decimal exponent used
by the `%e`/`%g` style formatters. -/
def decimalExpOf (x : ℚ) : Int :=
  let n := x.num.toNat
  let d := x.den
  if n ≥ d then ((natDigitsAux 60 (n / d) []).length : Int) - 1
  else
    let k0 := (natDigitsAux 60 d []).length - (natDigitsAux 60 n []).length
    if n * 10 ^ k0 ≥ d then -(k0 : Int) else -(k0 : Int) - 1

/-- Floor of a rational, computably. -/
def ratFloor (q : ℚ) : Int := q.num.fdiv (q.den : Int)

/-- Round a rational to the nearest integer, ties to even: the rounding of
IEEE-double formatting in Python. -/
def roundHalfEven (x : ℚ) : Int :=
  let f := ratFloor x
  let r := x - (f : ℚ)
  if r < 1 / 2 then f
  else if 1 / 2 < r then f + 1
  else if f % 2 = 0 then f else f + 1

/-- Integer power of ten as a rational. -/
def qpow10 (e : Int) : ℚ :=
  if 0 ≤ e then ((10 : ℚ) ^ e.toNat) else 1 / (10 : ℚ) ^ (-e).toNat

/-- Left-pad with a character to a width. -/
def padLeftWith (c : Char) (w : Nat) (s : String) : String :=
  ⟨List.replicate (w - s.length) c⟩ ++ s

/-- Right-pad with a character to a width (Python `<` alignment). -/
def padRightWith (c : Char) (w : Nat) (s : String) : String :=
  s ++ ⟨List.replicate (w - s.length) c⟩

/-- `n` zero characters. -/
def zeroString (n : Nat) : String := ⟨List.replicate n '0'⟩

/-- Python fixed-point formatting `%.<prec>f` of a nonnegative rational. -/
def formatFixedNN (prec : Nat) (q : ℚ) : String :=
  let scaled := (roundHalfEven (q * (10 : ℚ) ^ prec)).toNat
  let ip := scaled / 10 ^ prec
  let fp := scaled % 10 ^ prec
  if prec = 0 then natToString ip
  else natToString ip ++ "." ++ padLeftWith '0' prec (natToString fp)

/-- Python fixed-point formatting `%.<prec>f`. -/
def formatFixed (prec : Nat) (q : ℚ) : String :=
  if q < 0 then "-" ++ formatFixedNN prec (-q) else formatFixedNN prec q

/-- Drop trailing zero characters. -/
def stripTrailingZeros (s : String) : String :=
  ⟨(s.data.reverse.dropWhile (fun c => c = '0')).reverse⟩

/-- The exponent suffix of Python scientific notation: at least two digits,
always signed. -/
def expSuffix (e : Int) : String :=
  "e" ++ (if e < 0 then "-" else "+") ++ padLeftWith '0' 2 (natToString e.natAbs)

/-- Python `%e` formatting (`prec` fractional digits) of a rational. -/
def formatE (prec : Nat) (q : ℚ) : String :=
  if q = 0 then "0." ++ zeroString prec ++ "e+00"
  else
    let sign := if q < 0 then "-" else ""
    let x := |q|
    let e := decimalExpOf x
    let m := (roundHalfEven (x * qpow10 ((prec : Int) - e))).toNat
    let (m, e) := if m = 10 ^ (prec + 1) then (10 ^ prec, e + 1) else (m, e)
    let ds := natToString m
    sign ++ ds.take 1 ++ "." ++ ds.drop 1 ++ expSuffix e

/-- Python `%g` formatting with `prec` significant digits of a rational:
scientific notation for exponents below `-4` or at least `prec`, fixed
notation otherwise, trailing zeros stripped. -/
def formatG (prec : Nat) (q : ℚ) : String :=
  if q = 0 then "0"
  else
    let sign := if q < 0 then "-" else ""
    let x := |q|
    let e := decimalExpOf x
    let m := (roundHalfEven (x * qpow10 ((prec : Int) - 1 - e))).toNat
    let (m, e) := if m = 10 ^ prec then (10 ^ (prec - 1), e + 1) else (m, e)
    let ds := natToString m
    if e < -4 || (prec : Int) ≤ e then
      let frac := stripTrailingZeros (ds.drop 1)
      sign ++ ds.take 1 ++ (if frac = "" then "" else "." ++ frac) ++ expSuffix e
    else if 0 ≤ e then
      let ip := ds.take (e.toNat + 1)
      let frac := stripTrailingZeros (ds.drop (e.toNat + 1))
      sign ++ ip ++ (if frac = "" then "" else "." ++ frac)
    else
      sign ++ "0." ++ zeroString ((-e).toNat - 1) ++ stripTrailingZeros ds

/-- Python 2 `str` of a float: `%.12g`, with `.0` appended when the result
carries neither a decimal point nor an exponent. -/
def pyFloatStr (q : ℚ) : String :=
  let s := formatG 12 q
  if s.contains '.' || s.contains 'e' then s else s ++ ".0"

/-- Python `repr` of a `Value` (used by `str` of a list for its elements).
The first argument is nesting-depth fuel; every caller passes 100. -/
def pyReprDepth : Nat → Value → String
  | _, .int i => intDecimal i
  | _, .float q => pyFloatStr q
  | _, .bool b => if b then "True" else "False"
  | _, .str s => "'" ++ s ++ "'"
  | 0, .list _ => "[]"
  | fuel + 1, .list l =>
    "[" ++ String.intercalate ", " (l.map (pyReprDepth fuel)) ++ "]"

/-- Python `str` of a `Value`: the text `"{}".format(value)` interpolates. -/
def pyStrOfValue : Value → String
  | .str s => s
  | v => pyReprDepth 100 v

/-- Python `str(x)` as a schema coercion function: never raises. -/
def pyStr (v : Value) : Option Value := some (.str (pyStrOfValue v))

/-- A configuration dictionary: keys to values, first binding wins on
lookup. -/
def Config := List (String × Value)

/-- Python `key in config` / `config[key]`: the first binding. -/
def lookupKey : Config → String → Option Value
  | [], _ => none
  | (k2, v) :: rest, k => if k2 = k then some v else lookupKey rest k

/-- Python `config[key] = value`: replace the first binding with the key, or
append a new binding. -/
def setKey : Config → String → Value → Config
  | [], k, v => [(k, v)]
  | (k2, v2) :: rest, k, v =>
    if k2 = k then (k, v) :: rest else (k2, v2) :: setKey rest k v

/-- One entry of a `REQUIRED_CONFIGURATION` schema: the key, the coercion
function and the name `str(convert_fct)` prints for it.  The documentation
strings of the source schemas are elided: resolution never reads them. -/
structure ReqEntry where
  key : String
  coerceName : String
  coerce : Value → Option Value

/-- One entry of a `DEFAULT_CONFIGURATION` schema: additionally the default
value. -/
structure DefEntry where
  key : String
  default : Value
  coerceName : String
  coerce : Value → Option Value

/-- Errors of `InputFileGenerator.write`'s configuration-resolution loops
(both are `ValueError`s in the source; the payloads are the data the
messages interpolate). -/
inductive ConfigError where
  | missingConfiguration (format : String) (key : String)
  | invalidConfigurationType (key : String) (coerceName : String)
deriving DecidableEq

/-- The required-configuration loop of `InputFileGenerator.write`
(input_file_generator.py lines 469-480): for each schema entry, fail if the
key is absent, coerce its value, fail if coercion raises, store the coerced
value back into the configuration. -/
def resolveRequired (format : String) : List ReqEntry → Config → Except ConfigError Config
  | [], cfg => .ok cfg
  | e :: rest, cfg =>
    match lookupKey cfg e.key with
    | none => .error (.missingConfiguration format e.key)
    | some v =>
      match e.coerce v with
      | none => .error (.invalidConfigurationType e.key e.coerceName)
      | some w => resolveRequired format rest (setKey cfg e.key w)

/-- The default-configuration loop of `InputFileGenerator.write`
(input_file_generator.py lines 483-492): for each schema entry, coerce the
caller-supplied value when the key is present and the schema default
otherwise, fail if coercion raises, store the result. -/
def resolveDefaults : List DefEntry → Config → Except ConfigError Config
  | [], cfg => .ok cfg
  | e :: rest, cfg =>
    let input := (lookupKey cfg e.key).getD e.default
    match e.coerce input with
    | none => .error (.invalidConfigurationType e.key e.coerceName)
    | some w => resolveDefaults rest (setKey cfg e.key w)

/-- Full configuration resolution of `InputFileGenerator.write`: the
required loop followed by the default loop over the deep-copied caller
configuration. -/
def resolveConfiguration (format : String) (req : List ReqEntry)
    (defs : List DefEntry) (cfg : Config) : Except ConfigError Config :=
  match resolveRequired format req cfg with
  | .error e => .error e
  | .ok cfg2 => resolveDefaults defs cfg2

theorem lookupKey_setKey_self (cfg : Config) (k : String) (v : Value) :
    lookupKey (setKey cfg k v) k = some v := by
  induction cfg with
  | nil => simp [setKey, lookupKey]
  | cons hd tl ih =>
    by_cases h : hd.1 = k <;> simp [setKey, lookupKey, h, ih]

theorem lookupKey_setKey_ne (cfg : Config) {k k2 : String} (v : Value)
    (h : k2 ≠ k) : lookupKey (setKey cfg k v) k2 = lookupKey cfg k2 := by
  induction cfg with
  | nil => simp [setKey, lookupKey, Ne.symm h]
  | cons hd tl ih =>
    obtain ⟨k3, v3⟩ := hd
    by_cases h2 : k3 = k
    · subst h2
      simp [setKey, lookupKey, Ne.symm h]
    · simp only [setKey, if_neg h2, lookupKey]
      by_cases h3 : k3 = k2 <;> simp [h3, ih]

theorem setKey_self_of_lookup {cfg : Config} {k : String} {v : Value}
    (h : lookupKey cfg k = some v) : setKey cfg k v = cfg := by
  induction cfg with
  | nil => simp [lookupKey] at h
  | cons hd tl ih =>
    obtain ⟨k3, v3⟩ := hd
    by_cases h2 : k3 = k
    · subst h2
      simp [lookupKey] at h
      simp [setKey, h]
    · simp only [lookupKey, if_neg h2] at h
      simp [setKey, h2, ih h]

/-- An entry whose key is present in `cfg` with a value its coercion
accepts. -/
def EntryOk (cfg : Config) (e : ReqEntry) : Prop :=
  ∃ v w, lookupKey cfg e.key = some v ∧ e.coerce v = some w

theorem resolveRequired_ok (format : String) (schema : List ReqEntry) (cfg : Config)
    (hnd : (schema.map ReqEntry.key).Nodup)
    (hok : ∀ e ∈ schema, EntryOk cfg e) :
    ∃ cfg2, resolveRequired format schema cfg = .ok cfg2 ∧
      (∀ e ∈ schema, ∀ v, lookupKey cfg e.key = some v →
        ∃ w, e.coerce v = some w ∧ lookupKey cfg2 e.key = some w) ∧
      (∀ k, (∀ e ∈ schema, e.key ≠ k) → lookupKey cfg2 k = lookupKey cfg k) := by
  induction schema generalizing cfg with
  | nil => exact ⟨cfg, rfl, by simp, by simp⟩
  | cons e rest ih =>
    obtain ⟨v, w, hv, hw⟩ := hok e (by simp)
    have hnd2 : (rest.map ReqEntry.key).Nodup := (List.nodup_cons.mp hnd).2
    have hkey : e.key ∉ rest.map ReqEntry.key := (List.nodup_cons.mp hnd).1
    have hok2 : ∀ e2 ∈ rest, EntryOk (setKey cfg e.key w) e2 := by
      intro e2 he2
      obtain ⟨v2, w2, hv2, hw2⟩ := hok e2 (by simp [he2])
      have hne : e2.key ≠ e.key := by
        intro hh
        exact hkey (by rw [← hh]; exact List.mem_map_of_mem ReqEntry.key he2)
      exact ⟨v2, w2, by rw [lookupKey_setKey_ne _ _ hne]; exact hv2, hw2⟩
    obtain ⟨cfg2, hres, hmaps, hpass⟩ := ih (setKey cfg e.key w) hnd2 hok2
    refine ⟨cfg2, ?_, ?_, ?_⟩
    · simp [resolveRequired, hv, hw, hres]
    · intro e2 he2 v2 hv2
      rcases List.mem_cons.mp he2 with h | h
      · subst h
        rw [hv] at hv2
        cases hv2
        refine ⟨w, hw, ?_⟩
        have : ∀ e3 ∈ rest, e3.key ≠ e2.key := by
          intro e3 he3 hh
          exact hkey (by rw [← hh]; exact List.mem_map_of_mem ReqEntry.key he3)
        rw [hpass e2.key this]
        exact lookupKey_setKey_self cfg e2.key w
      · have hne : e2.key ≠ e.key := by
          intro hh
          exact hkey (by rw [← hh]; exact List.mem_map_of_mem ReqEntry.key h)
        have := hmaps e2 h v2 (by rw [lookupKey_setKey_ne _ _ hne]; exact hv2)
        exact this
    · intro k hk
      have hne : e.key ≠ k := hk e (by simp)
      rw [hpass k (fun e2 he2 => hk e2 (by simp [he2]))]
      exact lookupKey_setKey_ne _ _ (Ne.symm hne)

theorem resolveRequired_missing (format : String) (pre : List ReqEntry)
    (e : ReqEntry) (post : List ReqEntry) (cfg : Config)
    (hnd : ((pre ++ e :: post).map ReqEntry.key).Nodup)
    (hpre : ∀ e2 ∈ pre, EntryOk cfg e2)
    (habs : lookupKey cfg e.key = none) :
    resolveRequired format (pre ++ e :: post) cfg =
      .error (.missingConfiguration format e.key) := by
  induction pre generalizing cfg with
  | nil => simp [resolveRequired, habs]
  | cons p rest ih =>
    obtain ⟨v, w, hv, hw⟩ := hpre p (by simp)
    have hnd0 : (p.key :: (rest ++ e :: post).map ReqEntry.key).Nodup := by
      simpa using hnd
    have hnd2 : ((rest ++ e :: post).map ReqEntry.key).Nodup :=
      (List.nodup_cons.mp hnd0).2
    have hkeyp : p.key ∉ (rest ++ e :: post).map ReqEntry.key :=
      (List.nodup_cons.mp hnd0).1
    have hpree : e.key ≠ p.key := by
      intro hh
      exact hkeyp (by rw [← hh]; simp)
    have hpre2 : ∀ e2 ∈ rest, EntryOk (setKey cfg p.key w) e2 := by
      intro e2 he2
      obtain ⟨v2, w2, hv2, hw2⟩ := hpre e2 (by simp [he2])
      have hne : e2.key ≠ p.key := by
        intro hh
        exact hkeyp (by rw [← hh]; simp [List.mem_map_of_mem ReqEntry.key he2])
      exact ⟨v2, w2, by rw [lookupKey_setKey_ne _ _ hne]; exact hv2, hw2⟩
    have habs2 : lookupKey (setKey cfg p.key w) e.key = none := by
      rw [lookupKey_setKey_ne _ _ hpree]; exact habs
    simpa [resolveRequired, hv, hw] using ih (setKey cfg p.key w) hnd2 hpre2 habs2

theorem resolveRequired_badCoerce (format : String) (pre : List ReqEntry)
    (e : ReqEntry) (post : List ReqEntry) (cfg : Config) (v : Value)
    (hnd : ((pre ++ e :: post).map ReqEntry.key).Nodup)
    (hpre : ∀ e2 ∈ pre, EntryOk cfg e2)
    (hv : lookupKey cfg e.key = some v) (hbad : e.coerce v = none) :
    resolveRequired format (pre ++ e :: post) cfg =
      .error (.invalidConfigurationType e.key e.coerceName) := by
  induction pre generalizing cfg with
  | nil => simp [resolveRequired, hv, hbad]
  | cons p rest ih =>
    obtain ⟨v2, w2, hv2, hw2⟩ := hpre p (by simp)
    have hnd0 : (p.key :: (rest ++ e :: post).map ReqEntry.key).Nodup := by
      simpa using hnd
    have hnd2 : ((rest ++ e :: post).map ReqEntry.key).Nodup :=
      (List.nodup_cons.mp hnd0).2
    have hkeyp : p.key ∉ (rest ++ e :: post).map ReqEntry.key :=
      (List.nodup_cons.mp hnd0).1
    have hpree : e.key ≠ p.key := by
      intro hh
      exact hkeyp (by rw [← hh]; simp)
    have hpre2 : ∀ e2 ∈ rest, EntryOk (setKey cfg p.key w2) e2 := by
      intro e2 he2
      obtain ⟨v3, w3, hv3, hw3⟩ := hpre e2 (by simp [he2])
      have hne : e2.key ≠ p.key := by
        intro hh
        exact hkeyp (by rw [← hh]; simp [List.mem_map_of_mem ReqEntry.key he2])
      exact ⟨v3, w3, by rw [lookupKey_setKey_ne _ _ hne]; exact hv3, hw3⟩
    have hv4 : lookupKey (setKey cfg p.key w2) e.key = some v := by
      rw [lookupKey_setKey_ne _ _ hpree]; exact hv
    simpa [resolveRequired, hv2, hw2] using ih (setKey cfg p.key w2) hnd2 hpre2 hv4

theorem resolveDefaults_ok (schema : List DefEntry) (cfg : Config)
    (hnd : (schema.map DefEntry.key).Nodup)
    (hok : ∀ e ∈ schema, ∃ w, e.coerce ((lookupKey cfg e.key).getD e.default) = some w) :
    ∃ cfg2, resolveDefaults schema cfg = .ok cfg2 ∧
      (∀ e ∈ schema, ∀ w, e.coerce ((lookupKey cfg e.key).getD e.default) = some w →
        lookupKey cfg2 e.key = some w) ∧
      (∀ k, (∀ e ∈ schema, e.key ≠ k) → lookupKey cfg2 k = lookupKey cfg k) := by
  induction schema generalizing cfg with
  | nil => exact ⟨cfg, rfl, by simp, by simp⟩
  | cons e rest ih =>
    obtain ⟨w, hw⟩ := hok e (by simp)
    have hnd0 : (e.key :: rest.map DefEntry.key).Nodup := by simpa using hnd
    have hnd2 : (rest.map DefEntry.key).Nodup := (List.nodup_cons.mp hnd0).2
    have hkey : e.key ∉ rest.map DefEntry.key := (List.nodup_cons.mp hnd0).1
    have hok2 : ∀ e2 ∈ rest,
        ∃ w2, e2.coerce ((lookupKey (setKey cfg e.key w) e2.key).getD e2.default) = some w2 := by
      intro e2 he2
      have hne : e2.key ≠ e.key := by
        intro hh
        exact hkey (by rw [← hh]; exact List.mem_map_of_mem DefEntry.key he2)
      rw [lookupKey_setKey_ne _ _ hne]
      exact hok e2 (by simp [he2])
    obtain ⟨cfg2, hres, hmaps, hpass⟩ := ih (setKey cfg e.key w) hnd2 hok2
    refine ⟨cfg2, ?_, ?_, ?_⟩
    · simp [resolveDefaults, hw, hres]
    · intro e2 he2 w2 hw2
      rcases List.mem_cons.mp he2 with h | h
      · subst h
        rw [hw] at hw2
        cases hw2
        have : ∀ e3 ∈ rest, e3.key ≠ e2.key := by
          intro e3 he3 hh
          exact hkey (by rw [← hh]; exact List.mem_map_of_mem DefEntry.key he3)
        rw [hpass e2.key this]
        exact lookupKey_setKey_self cfg e2.key w
      · have hne : e2.key ≠ e.key := by
          intro hh
          exact hkey (by rw [← hh]; exact List.mem_map_of_mem DefEntry.key h)
        exact hmaps e2 h w2 (by rw [lookupKey_setKey_ne _ _ hne]; exact hw2)
    · intro k hk
      have hne : e.key ≠ k := hk e (by simp)
      rw [hpass k (fun e2 he2 => hk e2 (by simp [he2]))]
      exact lookupKey_setKey_ne _ _ (Ne.symm hne)

theorem resolveDefaults_fixed (schema : List DefEntry) (cfg : Config)
    (h : ∀ e ∈ schema, ∃ w, lookupKey cfg e.key = some w ∧ e.coerce w = some w) :
    resolveDefaults schema cfg = .ok cfg := by
  induction schema with
  | nil => rfl
  | cons e rest ih =>
    obtain ⟨w, hw, hcw⟩ := h e (by simp)
    have : resolveDefaults (e :: rest) cfg = resolveDefaults rest (setKey cfg e.key w) := by
      simp [resolveDefaults, hw, hcw]
    rw [this, setKey_self_of_lookup hw]
    exact ih (fun e2 he2 => h e2 (by simp [he2]))

theorem resolveDefaults_bad (pre : List DefEntry) (e : DefEntry)
    (post : List DefEntry) (cfg : Config)
    (hnd : ((pre ++ e :: post).map DefEntry.key).Nodup)
    (hpre : ∀ e2 ∈ pre, ∃ w, e2.coerce ((lookupKey cfg e2.key).getD e2.default) = some w)
    (hbad : e.coerce ((lookupKey cfg e.key).getD e.default) = none) :
    resolveDefaults (pre ++ e :: post) cfg =
      .error (.invalidConfigurationType e.key e.coerceName) := by
  induction pre generalizing cfg with
  | nil => simp [resolveDefaults, hbad]
  | cons p rest ih =>
    obtain ⟨w, hw⟩ := hpre p (by simp)
    have hnd0 : (p.key :: (rest ++ e :: post).map DefEntry.key).Nodup := by
      simpa using hnd
    have hnd2 : ((rest ++ e :: post).map DefEntry.key).Nodup :=
      (List.nodup_cons.mp hnd0).2
    have hkeyp : p.key ∉ (rest ++ e :: post).map DefEntry.key :=
      (List.nodup_cons.mp hnd0).1
    have hpree : e.key ≠ p.key := by
      intro hh
      exact hkeyp (by rw [← hh]; simp)
    have hpre2 : ∀ e2 ∈ rest,
        ∃ w2, e2.coerce ((lookupKey (setKey cfg p.key w) e2.key).getD e2.default) = some w2 := by
      intro e2 he2
      have hne : e2.key ≠ p.key := by
        intro hh
        exact hkeyp (by rw [← hh]; simp [List.mem_map_of_mem DefEntry.key he2])
      rw [lookupKey_setKey_ne _ _ hne]
      exact hpre e2 (by simp [he2])
    have hbad2 : e.coerce ((lookupKey (setKey cfg p.key w) e.key).getD e.default) = none := by
      rw [lookupKey_setKey_ne _ _ hpree]
      exact hbad
    simpa [resolveDefaults, hw] using ih (setKey cfg p.key w) hnd2 hpre2 hbad2

/-- A piece of a text template: literal text, or a `{KEY}` placeholder that
Python `str.format(**config)` replaces by `str(config[KEY])`. -/
inductive TChunk where
  | lit (s : String)
  | key (k : String)

/-- Python `template.format(**config)`: substitute every placeholder;
a key absent from the configuration raises `KeyError` (the error value). -/
def renderTemplate (chunks : List TChunk) (cfg : Config) : Except String String :=
  match chunks with
  | [] => .ok ""
  | .lit s :: rest => (renderTemplate rest cfg).map (s ++ ·)
  | .key k :: rest =>
    match lookupKey cfg k with
    | none => .error k
    | some v => (renderTemplate rest cfg).map (pyStrOfValue v ++ ·)

/-- An `obspy.UTCDateTime` as the backends read it: calendar fields with
microsecond precision. -/
structure OriginTime where
  year : Nat
  month : Nat
  day : Nat
  hour : Nat
  minute : Nat
  second : Nat
  microsecond : Nat
deriving DecidableEq

/-- A normalized event record as `InputFileGenerator` hands it to a backend
(the `_event_id` key is already stripped by `write`). -/
structure EventQ where
  latitude : ℚ
  longitude : ℚ
  depth_in_km : ℚ
  origin_time : OriginTime
  m_rr : ℚ
  m_tt : ℚ
  m_pp : ℚ
  m_rt : ℚ
  m_rp : ℚ
  m_tp : ℚ
  description : Option String := none
deriving DecidableEq

/-- A normalized station record as `InputFileGenerator` hands it to a
backend. -/
structure StationQ where
  id : String
  latitude : ℚ
  longitude : ℚ
  elevation_in_m : ℚ
  local_depth_in_m : ℚ
deriving DecidableEq

/-- Zero-pad to two digits. -/
def pad2 (n : Nat) : String := padLeftWith '0' 2 (natToString n)

/-- Zero-pad to four digits. -/
def pad4 (n : Nat) : String := padLeftWith '0' 4 (natToString n)

/-- Zero-pad to six digits. -/
def pad6 (n : Nat) : String := padLeftWith '0' 6 (natToString n)

/-- `str` of an `obspy.UTCDateTime`: ISO-8601 with six microsecond digits
and a trailing `Z`. -/
def isoTimeStr (t : OriginTime) : String :=
  pad4 t.year ++ "-" ++ pad2 t.month ++ "-" ++ pad2 t.day ++ "T" ++
    pad2 t.hour ++ ":" ++ pad2 t.minute ++ ":" ++ pad2 t.second ++ "." ++
    pad6 t.microsecond ++ "Z"

/-- Python `{x: <w>.<p>f}` formatting: space for the sign of a nonnegative
number, right-justified to the width. -/
def formatSpaceSigned (width prec : Nat) (q : ℚ) : String :=
  padLeftWith ' ' width
    ((if q < 0 then "-" else " ") ++ formatFixedNN prec (if q < 0 then -q else q))

/-- Errors a backend `write` function can raise. -/
inductive RenderError where
  | unsupportedEventCount (msg : String)
  | missingTemplateKey (key : String)
  | invalidStationId (id : String)
  | valueError (msg : String)
deriving DecidableEq

/-- The local `fbool` of the SPECFEM backend applied where `write` applies
it: bool values become the FORTRAN literals, all other values stay. -/
def fboolValue : Value → Value
  | .bool b => .str (if b then ".true." else ".false.")
  | v => v

/-- Lines 324-328 of the SPECFEM backend: a deep copy of the configuration
with every bool replaced by its FORTRAN spelling. -/
def specfemFboolConfig (cfg : Config) : Config :=
  cfg.map (fun kv => (kv.1, fboolValue kv.2))

/-- The first (PDE) line of the SPECFEM `CMT_SOLUTION_template` (lines
334-336), the only part that depends on the derived magnitude. -/
def specfemCMTFirstLine (magnitude : ℚ) (event : EventQ) : String :=
  let t := event.origin_time
  let time_ss : ℚ := (t.second : ℚ) + (t.microsecond : ℚ) / 10 ^ 6
  let event_name := isoTimeStr t ++ "_" ++ formatFixed 1 magnitude
  "PDE " ++ natToString t.year ++ " " ++ natToString t.month ++ " " ++
    natToString t.day ++ " " ++ natToString t.hour ++ " " ++
    natToString t.minute ++ " " ++ formatFixed 2 time_ss ++ " " ++
    formatFixed 5 event.latitude ++ " " ++ formatFixed 5 event.longitude ++
    " " ++ formatFixed 5 event.depth_in_km ++ " " ++
    formatFixed 1 magnitude ++ " " ++ formatFixed 1 magnitude ++ " " ++
    event_name

/-- The remaining lines of the SPECFEM `CMT_SOLUTION_template` (lines
337-348): fixed labels, coordinates, and the six tensor components scaled
by `1e7` (N·m to dyne·cm) and printed with `%.6g` (lines 383-389). -/
def specfemCMTBody (event : EventQ) : String :=
  "event name:      0000000\n" ++
    "time shift:       0.0000\n" ++
    "half duration:    " ++ formatFixed 4 0 ++ "\n" ++
    "latitude:       " ++ formatFixed 5 event.latitude ++ "\n" ++
    "longitude:      " ++ formatFixed 5 event.longitude ++ "\n" ++
    "depth:" ++ formatSpaceSigned 17 5 event.depth_in_km ++ "\n" ++
    "Mrr:         " ++ formatG 6 (event.m_rr * 10 ^ 7) ++ "\n" ++
    "Mtt:         " ++ formatG 6 (event.m_tt * 10 ^ 7) ++ "\n" ++
    "Mpp:         " ++ formatG 6 (event.m_pp * 10 ^ 7) ++ "\n" ++
    "Mrt:         " ++ formatG 6 (event.m_rt * 10 ^ 7) ++ "\n" ++
    "Mrp:         " ++ formatG 6 (event.m_rp * 10 ^ 7) ++ "\n" ++
    "Mtp:         " ++ formatG 6 (event.m_tp * 10 ^ 7)

/-- The `CMT_SOLUTION_template` of the SPECFEM backend (lines 333-348)
instantiated as lines 369-389 do, given the already-derived moment
magnitude. -/
def specfemCMTSolution (magnitude : ℚ) (event : EventQ) : String :=
  specfemCMTFirstLine magnitude event ++ "\n" ++ specfemCMTBody event

/-- One line of the SPECFEM STATIONS file (lines 393-401): station code,
network code (the id split on `.`), coordinates to 5 decimals, elevation and
burial depth to 1 decimal.  `none` models the `IndexError` on an id without
a dot. -/
def specfemStationLine (st : StationQ) : Option String :=
  match st.id.splitOn "." with
  | network :: station :: _ =>
    some (station ++ " " ++ network ++ " " ++ formatFixed 5 st.latitude ++
      " " ++ formatFixed 5 st.longitude ++ " " ++
      formatFixed 1 st.elevation_in_m ++ " " ++
      formatFixed 1 st.local_depth_in_m)
  | _ => none

/-- The station loop of the SPECFEM backend. -/
def specfemStationLines : List StationQ → Except RenderError (List String)
  | [] => .ok []
  | st :: rest =>
    match specfemStationLine st with
    | none => .error (.invalidStationId st.id)
    | some line => (specfemStationLines rest).map (line :: ·)
/-- The `par_file_template` of the SPECFEM3D_CARTESIAN_9e2aad47d52f97 backend
(write function, lines 169-322), split at its `{KEY}` placeholders. -/
def parFileTemplate : List TChunk := [
  TChunk.lit "# simulation input parameters\n#\n# forward or adjoint simulation\n# 1 = forward, 2 = adjoint, 3 = both simultaneously\nSIMULATION_TYPE                 = ",
  TChunk.key "SIMULATION_TYPE",
  TChunk.lit "\n# 0 = earthquake simulation,  1/2/3 = three steps in noise simulation\nNOISE_TOMOGRAPHY                = ",
  TChunk.key "NOISE_TOMOGRAPHY",
  TChunk.lit "\nSAVE_FORWARD                    = ",
  TChunk.key "SAVE_FORWARD",
  TChunk.lit "\n\n# UTM projection parameters\n# Use a negative zone number for the Southern hemisphere:\n# The Northern hemisphere corresponds to zones +1 to +60,\n# The Southern hemisphere corresponds to zones -1 to -60.\nUTM_PROJECTION_ZONE             = ",
  TChunk.key "UTM_PROJECTION_ZONE",
  TChunk.lit "\nSUPPRESS_UTM_PROJECTION         = ",
  TChunk.key "SUPPRESS_UTM_PROJECTION",
  TChunk.lit "\n\n# number of MPI processors\nNPROC                           = ",
  TChunk.key "NPROC",
  TChunk.lit "\n\n# time step parameters\nNSTEP                           = ",
  TChunk.key "NSTEP",
  TChunk.lit "\nDT                              = ",
  TChunk.key "DT",
  TChunk.lit "\n\n# number of nodes for 2D and 3D shape functions for hexahedra\n# we use either 8-node mesh elements (bricks) or 27-node elements.\n# If you use our internal mesher, the only option is 8-node bricks (27-node elements are not supported)\n# CUBIT does not support HEX27 elements either (it can generate them, but they are flat, i.e. identical to HEX8).\n# To generate HEX27 elements with curvature properly taken into account, you can use Gmsh http://geuz.org/gmsh/\nNGNOD                           = ",
  TChunk.key "NGNOD",
  TChunk.lit "\n\n# models:\n# available options are:\n#   default (model parameters described by mesh properties)\n# 1D models available are:\n#   1d_prem,1d_socal,1d_cascadia\n# 3D models available are:\n#   aniso,external,gll,salton_trough,tomo,SEP...\nMODEL                           = ",
  TChunk.key "MODEL",
  TChunk.lit "\n\n# if you are using a SEP model (oil-industry format)\nSEP_MODEL_DIRECTORY             = ",
  TChunk.key "SEP_MODEL_DIRECTORY",
  TChunk.lit "\n\n# parameters describing the model\nAPPROXIMATE_OCEAN_LOAD          = ",
  TChunk.key "APPROXIMATE_OCEAN_LOAD",
  TChunk.lit "\nTOPOGRAPHY                      = ",
  TChunk.key "TOPOGRAPHY",
  TChunk.lit "\nATTENUATION                     = ",
  TChunk.key "ATTENUATION",
  TChunk.lit "\nFULL_ATTENUATION_SOLID          = ",
  TChunk.key "FULL_ATTENUATION_SOLID",
  TChunk.lit "\nANISOTROPY                      = ",
  TChunk.key "ANISOTROPY",
  TChunk.lit "\nGRAVITY                         = ",
  TChunk.key "GRAVITY",
  TChunk.lit "\n\n# path for external tomographic models files\nTOMOGRAPHY_PATH                 = ",
  TChunk.key "TOMOGRAPHY_PATH",
  TChunk.lit "\n\n# Olsen's constant for Q_mu = constant * v_s attenuation rule\nUSE_OLSEN_ATTENUATION           = ",
  TChunk.key "USE_OLSEN_ATTENUATION",
  TChunk.lit "\nOLSEN_ATTENUATION_RATIO         = ",
  TChunk.key "OLSEN_ATTENUATION_RATIO",
  TChunk.lit "\n\n# C-PML boundary conditions for a regional simulation\nPML_CONDITIONS                  = ",
  TChunk.key "PML_CONDITIONS",
  TChunk.lit "\n\n# C-PML top surface\nPML_INSTEAD_OF_FREE_SURFACE     = ",
  TChunk.key "PML_INSTEAD_OF_FREE_SURFACE",
  TChunk.lit "\n\n# C-PML dominant frequency\nf0_FOR_PML                      = ",
  TChunk.key "f0_FOR_PML",
  TChunk.lit "\n\n# parameters used to rotate C-PML boundary conditions by a given angle (not completed yet)\n# ROTATE_PML_ACTIVATE           = ",
  TChunk.key "ROTATE_PML_ACTIVATE",
  TChunk.lit "\n# ROTATE_PML_ANGLE              = ",
  TChunk.key "ROTATE_PML_ANGLE",
  TChunk.lit "\n\n# absorbing boundary conditions for a regional simulation\nSTACEY_ABSORBING_CONDITIONS     = ",
  TChunk.key "STACEY_ABSORBING_CONDITIONS",
  TChunk.lit "\n\n# absorbing top surface (defined in mesh as 'free_surface_file')\nSTACEY_INSTEAD_OF_FREE_SURFACE  = ",
  TChunk.key "STACEY_INSTEAD_OF_FREE_SURFACE",
  TChunk.lit "\n\n# save AVS or OpenDX movies\n# MOVIE_TYPE = 1 to show the top surface\n# MOVIE_TYPE = 2 to show all the external faces of the mesh\nCREATE_SHAKEMAP                 = ",
  TChunk.key "CREATE_SHAKEMAP",
  TChunk.lit "\nMOVIE_SURFACE                   = ",
  TChunk.key "MOVIE_SURFACE",
  TChunk.lit "\nMOVIE_TYPE                      = ",
  TChunk.key "MOVIE_TYPE",
  TChunk.lit "\nMOVIE_VOLUME                    = ",
  TChunk.key "MOVIE_VOLUME",
  TChunk.lit "\nSAVE_DISPLACEMENT               = ",
  TChunk.key "SAVE_DISPLACEMENT",
  TChunk.lit "\nUSE_HIGHRES_FOR_MOVIES          = ",
  TChunk.key "USE_HIGHRES_FOR_MOVIES",
  TChunk.lit "\nNTSTEP_BETWEEN_FRAMES           = ",
  TChunk.key "NTSTEP_BETWEEN_FRAMES",
  TChunk.lit "\nHDUR_MOVIE                      = ",
  TChunk.key "HDUR_MOVIE",
  TChunk.lit "\n\n# save AVS or OpenDX mesh files to check the mesh\nSAVE_MESH_FILES                 = ",
  TChunk.key "SAVE_MESH_FILES",
  TChunk.lit "\n\n# path to store the local database file on each node\nLOCAL_PATH                      = ",
  TChunk.key "LOCAL_PATH",
  TChunk.lit "\n\n# interval at which we output time step info and max of norm of displacement\nNTSTEP_BETWEEN_OUTPUT_INFO      = ",
  TChunk.key "NTSTEP_BETWEEN_OUTPUT_INFO",
  TChunk.lit "\n\n# interval in time steps for writing of seismograms\nNTSTEP_BETWEEN_OUTPUT_SEISMOS   = ",
  TChunk.key "NTSTEP_BETWEEN_OUTPUT_SEISMOS",
  TChunk.lit "\n\n# interval in time steps for reading adjoint traces\n# 0 = read the whole adjoint sources at the same time\nNTSTEP_BETWEEN_READ_ADJSRC      = ",
  TChunk.key "NTSTEP_BETWEEN_READ_ADJSRC",
  TChunk.lit "\n\n# use a (tilted) FORCESOLUTION force point source (or several) instead of a CMTSOLUTION moment-tensor source.\n# This can be useful e.g. for oil industry foothills simulations or asteroid simulations\n# in which the source is a vertical force, normal force, inclined force, impact etc.\n# If this flag is turned on, the FORCESOLUTION file must be edited by giving:\n# - the corresponding time-shift parameter,\n# - the half duration parameter of the source,\n# - the coordinates of the source,\n# - the magnitude of the force source,\n# - the components of a direction vector for the force source in the E/N/Z_UP basis.\n# The direction vector is made unitary internally in the code and thus only its direction matters here;\n# its norm is ignored and the norm of the force used is the factor force source times the source time function.\nUSE_FORCE_POINT_SOURCE          = ",
  TChunk.key "USE_FORCE_POINT_SOURCE",
  TChunk.lit "\n\n# set to true to use a Ricker source time function instead of the source time functions set by default\n# to represent a (tilted) FORCESOLUTION force point source or a CMTSOLUTION moment-tensor source.\nUSE_RICKER_TIME_FUNCTION        = ",
  TChunk.key "USE_RICKER_TIME_FUNCTION",
  TChunk.lit "\n\n# print source time function\nPRINT_SOURCE_TIME_FUNCTION      = ",
  TChunk.key "PRINT_SOURCE_TIME_FUNCTION",
  TChunk.lit "\n\n# to couple with an external code (such as DSM, AxiSEM, or FK)\nCOUPLE_WITH_EXTERNAL_CODE       = ",
  TChunk.key "COUPLE_WITH_EXTERNAL_CODE",
  TChunk.lit "\nEXTERNAL_CODE_TYPE              = ",
  TChunk.key "EXTERNAL_CODE_TYPE",
  TChunk.lit "   # 1 = DSM, 2 = AxiSEM, 3 = FK\nTRACTION_PATH                   = ",
  TChunk.key "TRACTION_PATH",
  TChunk.lit "\nMESH_A_CHUNK_OF_THE_EARTH       = ",
  TChunk.key "MESH_A_CHUNK_OF_THE_EARTH",
  TChunk.lit "\n\n# set to true to use GPUs\nGPU_MODE                        = ",
  TChunk.key "GPU_MODE",
  TChunk.lit "\n\n# ADIOS Options for I/Os\nADIOS_ENABLED                   = ",
  TChunk.key "ADIOS_ENABLED",
  TChunk.lit "\nADIOS_FOR_DATABASES             = ",
  TChunk.key "ADIOS_FOR_DATABASES",
  TChunk.lit "\nADIOS_FOR_MESH                  = ",
  TChunk.key "ADIOS_FOR_MESH",
  TChunk.lit "\nADIOS_FOR_FORWARD_ARRAYS        = ",
  TChunk.key "ADIOS_FOR_FORWARD_ARRAYS",
  TChunk.lit "\nADIOS_FOR_KERNELS               = ",
  TChunk.key "ADIOS_FOR_KERNELS"
]

/-- The `REQUIRED_CONFIGURATION` schema of the SPECFEM backend (lines 20-27);
documentation strings elided (resolution never reads them). -/
def specfemRequiredConfiguration : List ReqEntry := [
  ⟨"NPROC", "int", pyInt⟩,
  ⟨"NSTEP", "int", pyInt⟩,
  ⟨"DT", "float", pyFloat⟩,
  ⟨"SIMULATION_TYPE", "int", pyInt⟩
]

/-- The `DEFAULT_CONFIGURATION` schema of the SPECFEM backend (lines 33-148);
documentation strings elided. -/
def specfemDefaultConfiguration : List DefEntry := [
  ⟨"NOISE_TOMOGRAPHY", Value.int 0, "int", pyInt⟩,
  ⟨"SAVE_FORWARD", Value.bool false, "bool", pyBool⟩,
  ⟨"UTM_PROJECTION_ZONE", Value.int 11, "int", pyInt⟩,
  ⟨"SUPPRESS_UTM_PROJECTION", Value.bool true, "bool", pyBool⟩,
  ⟨"NGNOD", Value.int 8, "int", pyInt⟩,
  ⟨"MODEL", Value.str "default", "str", pyStr⟩,
  ⟨"SEP_MODEL_DIRECTORY", Value.str "./DATA/my_SEP_model/", "str", pyStr⟩,
  ⟨"APPROXIMATE_OCEAN_LOAD", Value.bool false, "bool", pyBool⟩,
  ⟨"TOPOGRAPHY", Value.bool false, "bool", pyBool⟩,
  ⟨"ATTENUATION", Value.bool false, "bool", pyBool⟩,
  ⟨"FULL_ATTENUATION_SOLID", Value.bool false, "bool", pyBool⟩,
  ⟨"ANISOTROPY", Value.bool false, "bool", pyBool⟩,
  ⟨"GRAVITY", Value.bool false, "bool", pyBool⟩,
  ⟨"TOMOGRAPHY_PATH", Value.str "../DATA/tomo_files/", "str", pyStr⟩,
  ⟨"USE_OLSEN_ATTENUATION", Value.bool false, "bool", pyBool⟩,
  ⟨"OLSEN_ATTENUATION_RATIO", Value.float (1/20), "float", pyFloat⟩,
  ⟨"PML_CONDITIONS", Value.bool false, "bool", pyBool⟩,
  ⟨"PML_INSTEAD_OF_FREE_SURFACE", Value.bool false, "bool", pyBool⟩,
  ⟨"f0_FOR_PML", Value.float (127/10), "float", pyFloat⟩,
  ⟨"STACEY_ABSORBING_CONDITIONS", Value.bool false, "bool", pyBool⟩,
  ⟨"STACEY_INSTEAD_OF_FREE_SURFACE", Value.bool false, "bool", pyBool⟩,
  ⟨"CREATE_SHAKEMAP", Value.bool false, "bool", pyBool⟩,
  ⟨"MOVIE_SURFACE", Value.bool false, "bool", pyBool⟩,
  ⟨"MOVIE_TYPE", Value.int 1, "int", pyInt⟩,
  ⟨"MOVIE_VOLUME", Value.bool false, "bool", pyBool⟩,
  ⟨"SAVE_DISPLACEMENT", Value.bool false, "bool", pyBool⟩,
  ⟨"USE_HIGHRES_FOR_MOVIES", Value.bool false, "bool", pyBool⟩,
  ⟨"NTSTEP_BETWEEN_FRAMES", Value.int 200, "int", pyInt⟩,
  ⟨"HDUR_MOVIE", Value.float 0, "float", pyFloat⟩,
  ⟨"SAVE_MESH_FILES", Value.bool false, "bool", pyBool⟩,
  ⟨"LOCAL_PATH", Value.str "../OUTPUT_FILES/DATABASES_MPI", "str", pyStr⟩,
  ⟨"NTSTEP_BETWEEN_OUTPUT_INFO", Value.int 500, "int", pyInt⟩,
  ⟨"NTSTEP_BETWEEN_OUTPUT_SEISMOS", Value.int 10000, "int", pyInt⟩,
  ⟨"NTSTEP_BETWEEN_READ_ADJSRC", Value.int 0, "int", pyInt⟩,
  ⟨"USE_FORCE_POINT_SOURCE", Value.bool false, "bool", pyBool⟩,
  ⟨"USE_RICKER_TIME_FUNCTION", Value.bool false, "bool", pyBool⟩,
  ⟨"GPU_MODE", Value.bool false, "bool", pyBool⟩,
  ⟨"ROTATE_PML_ACTIVATE", Value.bool false, "bool", pyBool⟩,
  ⟨"ROTATE_PML_ANGLE", Value.float 0, "float", pyFloat⟩,
  ⟨"PRINT_SOURCE_TIME_FUNCTION", Value.bool false, "bool", pyBool⟩,
  ⟨"COUPLE_WITH_EXTERNAL_CODE", Value.bool false, "bool", pyBool⟩,
  ⟨"EXTERNAL_CODE_TYPE", Value.int 1, "int", pyInt⟩,
  ⟨"TRACTION_PATH", Value.str "./DATA/DSM_tractions_for_specfem3D/", "str", pyStr⟩,
  ⟨"MESH_A_CHUNK_OF_THE_EARTH", Value.bool true, "bool", pyBool⟩,
  ⟨"ADIOS_ENABLED", Value.bool false, "bool", pyBool⟩,
  ⟨"ADIOS_FOR_DATABASES", Value.bool false, "bool", pyBool⟩,
  ⟨"ADIOS_FOR_MESH", Value.bool false, "bool", pyBool⟩,
  ⟨"ADIOS_FOR_FORWARD_ARRAYS", Value.bool false, "bool", pyBool⟩,
  ⟨"ADIOS_FOR_KERNELS", Value.bool false, "bool", pyBool⟩
]

/-- The `write` function of the SPECFEM3D_CARTESIAN_9e2aad47d52f97 backend
(lines 151-409).  `magnitudeOf` abstracts the floating-point value of the
moment magnitude of lines 357-362 (its real-number content is modelled by
`specfemMagnitudeR`), but not its error path: `math.log10(M_0)` raises
`ValueError: math domain error` when `M_0 = 0.0`, which in exact
arithmetic happens exactly when all three diagonal tensor components are
zero (the sum of their squares vanishes).  Every step is the source order:
render the Par_file (a missing template key raises before anything else),
enforce the single-event limit, compute the magnitude (raising on a zero
scalar moment), build CMTSOLUTION, then the STATIONS lines. -/
def specfemWrite (magnitudeOf : ℚ → ℚ → ℚ → ℚ) (config : Config)
    (events : List EventQ) (stations : List StationQ) :
    Except RenderError (List (String × String)) :=
  let c := specfemFboolConfig config
  match renderTemplate parFileTemplate c with
  | .error k => .error (.missingTemplateKey k)
  | .ok parFile =>
    match events with
    | [event] =>
      if event.m_rr = 0 ∧ event.m_tt = 0 ∧ event.m_pp = 0 then
        .error (.valueError "math domain error")
      else
        let magnitude := magnitudeOf event.m_rr event.m_tt event.m_pp
        let cmt := specfemCMTSolution magnitude event
        match specfemStationLines stations with
        | .error e => .error e
        | .ok parts =>
          .ok [("Par_file", parFile), ("CMTSOLUTION", cmt),
               ("STATIONS", String.intercalate "\n" parts)]
    | _ =>
      .error (.unsupportedEventCount
        "The SPECFEM backend can currently only deal with a single event.")

/-- The SPECFEM backend `write` as a configuration-state transformer: the
source works on `copy.deepcopy(config.__dict__)` (line 324), so the
caller's configuration is returned unchanged. -/
def specfemWriteSt (magnitudeOf : ℚ → ℚ → ℚ → ℚ) (config : Config)
    (events : List EventQ) (stations : List StationQ) :
    Except RenderError (List (String × String)) × Config :=
  (specfemWrite magnitudeOf config events stations, config)

/-- The resolved configuration of the SES3D 4.1 backend, as a typed record:
one field per key of its `REQUIRED_CONFIGURATION` (lines 24-44) and
`DEFAULT_CONFIGURATION` (lines 50-95), holding the post-coercion value the
`write` function reads through attribute access. -/
structure Ses3dConfig where
  output_folder : String
  number_of_time_steps : Int
  time_increment_in_s : ℚ
  mesh_min_latitude : ℚ
  mesh_max_latitude : ℚ
  mesh_min_longitude : ℚ
  mesh_max_longitude : ℚ
  mesh_min_depth_in_km : ℚ
  mesh_max_depth_in_km : ℚ
  nx_global : Int
  ny_global : Int
  nz_global : Int
  px : Int
  py : Int
  pz : Int
  source_time_function : List ℚ
  event_tag : String
  is_dissipative : Bool
  stf_header : List String
  output_displacement : Bool
  displacement_snapshot_sampling : Int
  lagrange_polynomial_degree : Int
  simulation_type : String
  adjoint_forward_sampling_rate : Int
  adjoint_forward_wavefield_output_folder : String
  rotation_angle_in_degree : ℚ
  rotation_axis : List ℚ
  Q_model_relaxation_times : List ℚ
  Q_model_weights_of_relaxation_mechanisms : List ℚ
deriving DecidableEq

/-- `EARTH_RADIUS` of the SES3D backend (line 17). -/
def earthRadius : ℚ := 6371 * 1000

/-- Modelled from the spec: `rotations.lat2colat` is code of this repository
that is not under src/ (the `rotations` module is only imported).  The spec
calls the converted quantity the colatitude (§4.3 and the SES3D templates),
whose standard relation to latitude the source comments confirm by swapping
the minimum and maximum latitude: `colatitude = 90 - latitude`. -/
def lat2colat (lat : ℚ) : ℚ := 90 - lat

/-- Modelled from the spec: `rotations.rotate_lat_lon` is code of this
repository that is not under src/.  The spec (§1, §9) describes it as the
pure rotation of a coordinate pair about an `[x, y, z]` axis by an angle in
degrees.  The model implements the rotation about the default axis
`[0, 0, 1]` (the Earth's axis), where rotating a point adds the angle to
its longitude; every evaluation in this development uses that axis.  For
any other axis the model leaves the point unchanged. -/
def rotate_lat_lon (lat lng : ℚ) (axis : List ℚ) (angle : ℚ) : ℚ × ℚ :=
  if axis = [0, 0, 1] then (lat, lng + angle) else (lat, lng)

/-- Modelled from the spec: `rotations.rotate_moment_tensor` is code of this
repository that is not under src/.  The spec (§1, §9) describes it as the
pure rotation of the six moment-tensor components about an axis by an
angle.  The model returns the tensor unchanged; every evaluation in this
development applies it to an isotropic tensor (equal diagonal, zero
off-diagonal components), which every rotation leaves invariant. -/
def rotate_moment_tensor (m_rr m_tt m_pp m_rt m_rp m_tp : ℚ)
    (_lat _lng : ℚ) (_axis : List ℚ) (_angle : ℚ) :
    ℚ × ℚ × ℚ × ℚ × ℚ × ℚ :=
  (m_rr, m_tt, m_pp, m_rt, m_rp, m_tp)

/-- `_is_in_bounds` of the SES3D backend (lines 373-377). -/
def ses3dIsInBounds (lat lng : ℚ) (cfg : Ses3dConfig) : Bool :=
  decide (cfg.mesh_min_latitude ≤ lat) && decide (lat ≤ cfg.mesh_max_latitude) &&
    decide (cfg.mesh_min_longitude ≤ lng) && decide (lng ≤ cfg.mesh_max_longitude)

/-- The simulation-type map of the SES3D backend (lines 123-124); `none`
models the `ValueError` for an unknown type. -/
def ses3dSimulationTypeInt : String → Option Int
  | "normal simulation" => some 0
  | "adjoint forward" => some 1
  | "adjoint reverse" => some 2
  | _ => none
/-- A run of `n` copies of the separator character `=`, as the SES3D
template headers use it. -/
def eqRun (n : Nat) : String := String.mk (List.replicate n (Char.ofNat 61))

/-- The `setup_file_template` of the SES3D 4.1 backend (lines 175-230),
instantiated as lines 208-230 do.  Colatitudes swap the latitude bounds;
radii invert the depth bounds. -/
def ses3dSetupFile (cfg : Ses3dConfig) (simulationTypeInt : Int) : String :=
  "MODEL " ++ eqRun 133 ++ "\n" ++
    (padRightWith ' ' 44 (formatFixed 6 (lat2colat cfg.mesh_max_latitude))) ++
    "! theta_min (colatitude) in degrees\n" ++
    (padRightWith ' ' 44 (formatFixed 6 (lat2colat cfg.mesh_min_latitude))) ++
    "! theta_max (colatitude) in degrees\n" ++
    (padRightWith ' ' 44 (formatFixed 6 (cfg.mesh_min_longitude))) ++
    "! phi_min (longitude) in degrees\n" ++
    (padRightWith ' ' 44 (formatFixed 6 (cfg.mesh_max_longitude))) ++
    "! phi_max (longitude) in degrees\n" ++
    (padRightWith ' ' 44 (formatFixed 6 (earthRadius - cfg.mesh_max_depth_in_km * 1000))) ++
    "! z_min (radius) in m\n" ++
    (padRightWith ' ' 44 (formatFixed 6 (earthRadius - cfg.mesh_min_depth_in_km * 1000))) ++
    "! z_max (radius) in m\n" ++
    (padRightWith ' ' 44 (intDecimal (if cfg.is_dissipative then (1 : Int) else 0))) ++
    "! is_diss\n" ++
    (padRightWith ' ' 44 (intDecimal ((1 : Int)))) ++
    "! model_type\nCOMPUTATIONAL SETUP (PARALLELISATION) " ++ eqRun 101 ++ "\n" ++
    (padRightWith ' ' 44 (intDecimal (cfg.nx_global))) ++
    "! nx_global, (nx_global+px = global # elements in theta direction)\n" ++
    (padRightWith ' ' 44 (intDecimal (cfg.ny_global))) ++
    "! ny_global, (ny_global+py = global # elements in phi direction)\n" ++
    (padRightWith ' ' 44 (intDecimal (cfg.nz_global))) ++
    "! nz_global, (nz_global+pz = global # of elements in r direction)\n" ++
    (padRightWith ' ' 44 (intDecimal (cfg.lagrange_polynomial_degree))) ++
    "! lpd, LAGRANGE polynomial degree\n" ++
    (padRightWith ' ' 44 (intDecimal (cfg.px))) ++
    "! px, processors in theta direction\n" ++
    (padRightWith ' ' 44 (intDecimal (cfg.py))) ++
    "! py, processors in phi direction\n" ++
    (padRightWith ' ' 44 (intDecimal (cfg.pz))) ++
    "! pz, processors in r direction\nADJOINT PARAMETERS " ++ eqRun 120 ++ "\n" ++
    (padRightWith ' ' 44 (intDecimal (simulationTypeInt))) ++
    "! adjoint_flag (0=normal simulation, 1=adjoint forward, 2=adjoint reverse)\n" ++
    (padRightWith ' ' 44 (intDecimal (cfg.adjoint_forward_sampling_rate))) ++
    "! samp_ad, sampling rate of forward field\n" ++
    (cfg.adjoint_forward_wavefield_output_folder)

/-- The `event_template` of the SES3D 4.1 backend (lines 238-262),
instantiated as lines 264-280 do, with the possibly rotated event
coordinates and moment tensor. -/
def ses3dEventFile (cfg : Ses3dConfig) (event : EventQ)
    (lat lng mrr mtt mpp mrt mrp mtp : ℚ) : String :=
  "SIMULATION PARAMETERS " ++ eqRun 82 ++ "\n" ++
    (padRightWith ' ' 44 (intDecimal (cfg.number_of_time_steps))) ++
    "! nt, number of time steps\n" ++
    (padRightWith ' ' 44 (formatFixed 6 (cfg.time_increment_in_s))) ++
    "! dt in sec, time increment\nSOURCE " ++ eqRun 97 ++ "\n" ++
    (padRightWith ' ' 44 (formatFixed 6 (lat2colat lat))) ++
    "! xxs, theta-coord. center of source in degrees\n" ++
    (padRightWith ' ' 44 (formatFixed 6 (lng))) ++
    "! yys, phi-coord. center of source in degrees\n" ++
    (padRightWith ' ' 44 (formatFixed 6 (event.depth_in_km * 1000))) ++
    "! zzs, source depth in (m)\n" ++
    (padRightWith ' ' 44 (intDecimal ((10 : Int)))) ++
    "! srctype, 1:f_x, 2:f_y, 3:f_z, 10:M_ij\n" ++
    (padRightWith ' ' 44 (formatE 6 (mtt))) ++
    "! M_theta_theta\n" ++
    (padRightWith ' ' 44 (formatE 6 (mpp))) ++
    "! M_phi_phi\n" ++
    (padRightWith ' ' 44 (formatE 6 (mrr))) ++
    "! M_r_r\n" ++
    (padRightWith ' ' 44 (formatE 6 (mtp))) ++
    "! M_theta_phi\n" ++
    (padRightWith ' ' 44 (formatE 6 (mrt))) ++
    "! M_theta_r\n" ++
    (padRightWith ' ' 44 (formatE 6 (mrp))) ++
    "! M_phi_r\nOUTPUT DIRECTORY " ++ eqRun 86 ++ "\n" ++
    (cfg.output_folder) ++
    "\nOUTPUT FLAGS " ++ eqRun 90 ++ "\n" ++
    (padRightWith ' ' 44 (intDecimal (cfg.displacement_snapshot_sampling))) ++
    "! ssamp, snapshot sampling\n" ++
    (padRightWith ' ' 44 (intDecimal (if cfg.output_displacement then (1 : Int) else 0))) ++
    "! output_displacement, output displacement field (1=yes,0=no)"

/-- The two recfile lines one station contributes (lines 319-325):
the id line with underscore padding, and colatitude/longitude/depth. -/
def ses3dRecfileStationLines (network station : String)
    (lat lng depth : ℚ) : List String :=
  [(padRightWith '_' 2 (network)) ++
     "." ++
     (padRightWith '_' 5 (station)) ++
     ".___",
   (formatFixed 6 (lat2colat lat)) ++
     " " ++
     (formatFixed 6 (lng)) ++
     " " ++
     (formatFixed 1 (depth))]

/-- The recfile station loop of the SES3D backend (lines 298-326): rotate a
station when a rotation is configured, silently skip stations outside the
mesh, clamp negative depths to zero, and emit two lines per station.
`none` models the `IndexError` on a station id without a dot. -/
def ses3dRecfileParts (cfg : Ses3dConfig) : List StationQ → Option (List String)
  | [] => some []
  | st :: rest =>
    let (lat, lng) :=
      if cfg.rotation_angle_in_degree ≠ 0 then
        rotate_lat_lon st.latitude st.longitude cfg.rotation_axis
          cfg.rotation_angle_in_degree
      else (st.latitude, st.longitude)
    if ses3dIsInBounds lat lng cfg then
      match st.id.splitOn "." with
      | network :: station :: _ =>
        (ses3dRecfileParts cfg rest).map
          (ses3dRecfileStationLines network station lat lng
            (let depth := -(st.elevation_in_m - st.local_depth_in_m)
             if depth < 0 then 0 else depth) ++ ·)
      | _ => none
    else
      ses3dRecfileParts cfg rest

/-- The relaxation file of the SES3D backend (lines 336-345). -/
def ses3dRelaxFile (cfg : Ses3dConfig) : String :=
  "RELAXATION TIMES [s] =====================\n" ++
    String.intercalate "\n" (cfg.Q_model_relaxation_times.map (formatFixed 6)) ++
    "\nWEIGHTS OF RELAXATION MECHANISMS =========\n" ++
    String.intercalate "\n"
      (cfg.Q_model_weights_of_relaxation_mechanisms.map (formatFixed 6))

/-- The source-time-function file of the SES3D backend (lines 353-361):
up to four `#`-prefixed header lines (stripped, inner newlines replaced by
spaces), padded to four lines, then one `%e` sample per line. -/
def ses3dStfFile (cfg : Ses3dConfig) : String :=
  let header := cfg.stf_header.map (fun line =>
    "# " ++ (line.trim.replace "\n" " "))
  let header := header ++ List.replicate (4 - header.length) "#"
  String.intercalate "\n" (header ++ cfg.source_time_function.map (formatE 6))

/-- Lines 112-120 of the SES3D backend's `write`: the two in-place
mutations of the configuration object it is handed.  An empty
`adjoint_forward_wavefield_output_folder` is filled with a subfolder of the
output directory, and a nonzero `rotation_angle_in_degree` is negated (the
data is rotated in the opposite direction of the mesh rotation). -/
def ses3dApplyConfigMutations (cfg : Ses3dConfig) : Ses3dConfig :=
  let cfg :=
    if cfg.adjoint_forward_wavefield_output_folder = "" then
      { cfg with adjoint_forward_wavefield_output_folder :=
          cfg.output_folder ++ "/ADJOINT_FORWARD_FIELD" }
    else cfg
  if cfg.rotation_angle_in_degree ≠ 0 then
    { cfg with rotation_angle_in_degree := -cfg.rotation_angle_in_degree }
  else cfg

/-- The rendering part of the SES3D backend's `write` (lines 122-370),
operating on the already mutated configuration. -/
def ses3dRender (cfg : Ses3dConfig) (events : List EventQ)
    (stations : List StationQ) :
    Except RenderError (List (String × String)) :=
  match ses3dSimulationTypeInt cfg.simulation_type with
  | none =>
    .error (.valueError
      "simulation_type needs to be on of normal simulation, adjoint forward, adjoint reverse.")
  | some simulationTypeInt =>
    match events with
    | [event] =>
      let (lat, lng) :=
        if cfg.rotation_angle_in_degree ≠ 0 then
          rotate_lat_lon event.latitude event.longitude cfg.rotation_axis
            cfg.rotation_angle_in_degree
        else (event.latitude, event.longitude)
      let (mrr, mtt, mpp, mrt, mrp, mtp) :=
        if cfg.rotation_angle_in_degree ≠ 0 then
          rotate_moment_tensor event.m_rr event.m_tt event.m_pp event.m_rt
            event.m_rp event.m_tp event.latitude event.longitude
            cfg.rotation_axis cfg.rotation_angle_in_degree
        else (event.m_rr, event.m_tt, event.m_pp, event.m_rt,
          event.m_rp, event.m_tp)
      if ses3dIsInBounds lat lng cfg then
        match ses3dRecfileParts cfg stations with
        | none => .error (.invalidStationId "recfile")
        | some parts =>
          let recfile := String.intercalate "\n"
            (natToString (parts.length / 2) :: parts)
          let files : List (String × String) :=
            [("setup", ses3dSetupFile cfg simulationTypeInt),
             ("event_" ++ cfg.event_tag,
               ses3dEventFile cfg event lat lng mrr mtt mpp mrt mrp mtp),
             ("event_list",
               padRightWith ' ' 44 (intDecimal 1) ++
                 "! n_events = number of events\n" ++ cfg.event_tag),
             ("recfile_" ++ cfg.event_tag, recfile),
             ("relax", ses3dRelaxFile cfg),
             ("stf", ses3dStfFile cfg)]
          .ok (files.map (fun kv => (kv.1, kv.2 ++ "\n\n")))
      else
        .error (.valueError "Event is not in the domain!")
    | _ =>
      .error (.unsupportedEventCount
        "Exactly one event is required for SES3D 4.0.")

/-- The `write` function of the SES3D 4.1 backend (lines 98-370), as a
configuration-state transformer: after the header check the function
mutates the configuration object it is handed (lines 112-120,
`ses3dApplyConfigMutations`) and renders with the mutated configuration, so
the pair returned is (result, configuration as left behind).  Every output
file gets a trailing `"\n\n"` appended (lines 367-368). -/
def ses3dWrite (cfg : Ses3dConfig) (events : List EventQ)
    (stations : List StationQ) :
    Except RenderError (List (String × String)) × Ses3dConfig :=
  if cfg.stf_header.length > 4 then
    (.error (.valueError "The STF header can only be up to 4 lines."), cfg)
  else
    let cfg := ses3dApplyConfigMutations cfg
    (ses3dRender cfg events stations, cfg)

/-- The pre-normalization station record `add_stations` builds from a
station dictionary (lines 236-245): required fields coerced, the optional
`local_depth_in_m` kept only when its `float` coercion succeeds. -/
structure StationPre where
  id : String
  latitude : ℚ
  longitude : ℚ
  elevation_in_m : ℚ
  local_depth_in_m : Option ℚ
deriving DecidableEq

/-- The dictionary branch of `InputFileGenerator.add_stations`
(input_file_generator.py lines 225-246): reject a dictionary missing one of
the four required keys with the `ValueError` message of line 230, reject a
required field whose `float` coercion raises (the uncaught exception of
lines 237-239), and silently drop an uncoercible or absent
`local_depth_in_m` (the bare `try/except: pass` of lines 241-245). -/
def processStationDict (d : Config) : Except String StationPre :=
  match lookupKey d "latitude", lookupKey d "longitude",
      lookupKey d "elevation_in_m", lookupKey d "id" with
  | some vlat, some vlng, some velev, some vid =>
    match pyFloatQ vlat, pyFloatQ vlng, pyFloatQ velev with
    | some lat, some lng, some elev =>
      .ok { id := pyStrOfValue vid, latitude := lat, longitude := lng,
            elevation_in_m := elev,
            local_depth_in_m := (lookupKey d "local_depth_in_m").bind pyFloatQ }
    | _, _, _ =>
      .error "could not convert string to float"
  | _, _, _, _ =>
    .error "Each station dictionary needs to at least have 'latitude', 'longitude', 'elevation_in_m', and 'id' keys."

/-- Insertion into the per-call `all_stations` dictionary keyed by station
id (line 246): a later record with the same id overwrites the earlier. -/
def insertStationPre (acc : List StationPre) (s : StationPre) : List StationPre :=
  match acc with
  | [] => [s]
  | t :: rest => if t.id = s.id then s :: rest else t :: insertStationPre rest s

/-- The dictionary loop of `add_stations` over a list of station
dictionaries, building the per-call `all_stations` dictionary in order. -/
def collectStationDictsAux (acc : List StationPre) :
    List Config → Except String (List StationPre)
  | [] => .ok acc
  | d :: rest =>
    match processStationDict d with
    | .error e => .error e
    | .ok s => collectStationDictsAux (insertStationPre acc s) rest

/-- The dictionary loop of `add_stations`: process each dictionary and key
the results by id, last write wins within the call. -/
def collectStationDicts (dicts : List Config) : Except String (List StationPre) :=
  collectStationDictsAux [] dicts

/-- `unique_list` of input_file_generator.py (lines 37-46), with the items
already emitted as the accumulator: drop every item equal to an earlier
one, keeping first occurrences in order. -/
def uniqueListAux {α : Type} [DecidableEq α] (seen : List α) : List α → List α
  | [] => []
  | x :: xs =>
    if x ∈ seen then uniqueListAux seen xs
    else x :: uniqueListAux (x :: seen) xs

/-- `unique_list` of input_file_generator.py (lines 37-46). -/
def uniqueList {α : Type} [DecidableEq α] (l : List α) : List α :=
  uniqueListAux [] l

/-- `InputFileGenerator.__add_stations` (lines 306-327) restricted to one
pre-normalized record: the optional local depth defaults to `0.0` exactly
when absent (the `try/except` of lines 320-324; an uncoercible value was
already dropped by `add_stations`). -/
def finalizeStation (p : StationPre) : StationQ :=
  { id := p.id, latitude := p.latitude, longitude := p.longitude,
    elevation_in_m := p.elevation_in_m,
    local_depth_in_m := p.local_depth_in_m.getD 0 }

/-- One `add_stations` call on a list of station dictionaries, from the
collected state `stations` (the generator's `_stations` list): collect the
dictionaries keyed by id, normalize them, extend the state and deduplicate
records equal in all fields (lines 209-246, 304, 306-327). -/
def addStationsDicts (stations : List StationQ) (dicts : List Config) :
    Except String (List StationQ) :=
  match collectStationDicts dicts with
  | .error e => .error e
  | .ok pres => .ok (uniqueList (stations ++ pres.map finalizeStation))

/-- Stable insertion of a station into a list sorted by id: a new record
goes after every record whose id is not greater, as Python's stable
`sorted` with `key=lambda x: x["id"]` places it. -/
def insertSortedById (x : StationQ) : List StationQ → List StationQ
  | [] => [x]
  | y :: ys => if x.id < y.id then x :: y :: ys else y :: insertSortedById x ys

/-- Python's stable `sorted(..., key=lambda x: x["id"])` (line 453-454),
as a left-to-right stable insertion sort. -/
def sortStationsById (l : List StationQ) : List StationQ :=
  l.foldl (fun acc x => insertSortedById x acc) []

/-- Lines 451-455 of `InputFileGenerator.write`: the station list handed to
the backend renderer is the deduplicated collected list, stably sorted in
ascending order of the id string (the deep copy is value-semantic here). -/
def writeStationPrep (stations : List StationQ) : List StationQ :=
  sortStationsById (uniqueList stations)

/-- The scalar seismic moment of the SPECFEM backend (lines 358-361),
`M_0 = 1/sqrt(2) * sqrt(m_rr^2 + m_tt^2 + m_pp^2)`, with the float
arithmetic modelled over the reals.  Only the three diagonal tensor
components enter. -/
noncomputable def specfemM0R (m_rr m_tt m_pp : ℝ) : ℝ :=
  1 / Real.sqrt 2 * Real.sqrt (m_rr ^ 2 + m_tt ^ 2 + m_pp ^ 2)

/-- The moment magnitude of the SPECFEM backend (line 362),
`2/3 * log10(M_0) - 6.0`, with the float arithmetic modelled over the
reals. -/
noncomputable def specfemMagnitudeR (m_rr m_tt m_pp : ℝ) : ℝ :=
  2 / 3 * Real.logb 10 (specfemM0R m_rr m_tt m_pp) - 6

/-- The magnitude derivation applied to a full six-component tensor, as the
backend reads it off an event record: the off-diagonal components are never
consulted. -/
noncomputable def specfemMagnitudeSixR (m_rr m_tt m_pp _m_rt _m_rp _m_tp : ℝ) : ℝ :=
  specfemMagnitudeR m_rr m_tt m_pp

theorem resolveDefaults_ok_inputs (schema : List DefEntry) (cfg cfg2 : Config)
    (hnd : (schema.map DefEntry.key).Nodup)
    (h : resolveDefaults schema cfg = .ok cfg2) :
    ∀ e ∈ schema, ∃ w, e.coerce ((lookupKey cfg e.key).getD e.default) = some w := by
  induction schema generalizing cfg with
  | nil => simp
  | cons e rest ih =>
    have hnd0 : (e.key :: rest.map DefEntry.key).Nodup := by simpa using hnd
    have hkey : e.key ∉ rest.map DefEntry.key := (List.nodup_cons.mp hnd0).1
    cases hw : e.coerce ((lookupKey cfg e.key).getD e.default) with
    | none => rw [resolveDefaults, hw] at h; exact absurd h (by simp)
    | some w =>
      have h2 : resolveDefaults rest (setKey cfg e.key w) = .ok cfg2 := by
        rw [resolveDefaults, hw] at h; exact h
      intro e2 he2
      rcases List.mem_cons.mp he2 with rfl | he3
      · exact ⟨w, hw⟩
      · have hne : e2.key ≠ e.key := by
          intro hh
          exact hkey (by rw [← hh]; exact List.mem_map_of_mem DefEntry.key he3)
        have := ih (setKey cfg e.key w) (List.nodup_cons.mp hnd0).2 h2 e2 he3
        rwa [lookupKey_setKey_ne _ _ hne] at this

theorem pyInt_idem {v w : Value} (h : pyInt v = some w) : pyInt w = some w := by
  cases v <;> simp only [pyInt] at h
  · cases h; rfl
  · cases h; rfl
  · cases h; rfl
  · cases hp : parseIntStr _ with
    | none => rw [hp] at h; cases h
    | some i => rw [hp] at h; cases h; rfl
  · cases h

theorem pyFloat_idem {v w : Value} (h : pyFloat v = some w) : pyFloat w = some w := by
  cases v <;> simp only [pyFloat] at h
  · cases h; rfl
  · cases h; rfl
  · cases h; rfl
  · cases hp : parseFloatStr _ with
    | none => rw [hp] at h; cases h
    | some q => rw [hp] at h; cases h; rfl
  · cases h

theorem pyBool_idem {v w : Value} (h : pyBool v = some w) : pyBool w = some w := by
  cases v <;> simp only [pyBool] at h <;> cases h <;> rfl

theorem pyStr_idem {v w : Value} (h : pyStr v = some w) : pyStr w = some w := by
  simp only [pyStr] at h
  cases h
  rfl

/-- Every coercion function of the SPECFEM default schema maps its own
output to itself: re-coercing a coerced value changes nothing. -/
theorem specfemDefault_coerce_idem :
    ∀ e ∈ specfemDefaultConfiguration, ∀ v w : Value,
      e.coerce v = some w → e.coerce w = some w := by
  intro e he
  have : e.coerce = pyInt ∨ e.coerce = pyFloat ∨ e.coerce = pyBool ∨ e.coerce = pyStr := by
    simp only [specfemDefaultConfiguration, List.mem_cons,
      List.not_mem_nil, or_false] at he
    rcases he with rfl|rfl|rfl|rfl|rfl|rfl|rfl|rfl|rfl|rfl|rfl|rfl|rfl|rfl|rfl|rfl|rfl|
      rfl|rfl|rfl|rfl|rfl|rfl|rfl|rfl|rfl|rfl|rfl|rfl|rfl|rfl|rfl|rfl|rfl|rfl|rfl|rfl|
      rfl|rfl|rfl|rfl|rfl|rfl|rfl|rfl|rfl|rfl|rfl|rfl <;> simp
  intro v w h
  rcases this with hc|hc|hc|hc <;> rw [hc] at h ⊢
  · exact pyInt_idem h
  · exact pyFloat_idem h
  · exact pyBool_idem h
  · exact pyStr_idem h

/-- C1: For every backend and every raw configuration, configuration
resolution checks each key of the backend's required schema: if the key is
absent from the raw configuration, resolution fails with a
missing-configuration error naming the backend and the key; if the key is
present but applying its coercion function raises, resolution fails with an
invalid-configuration-type error naming the key and the coercion function;
if all required keys are present and coerce, the resolved configuration
maps each required key to the coerced value (and leaves every key outside
the schema untouched).  The failing-entry clauses hold for the first
problematic entry in schema order, exactly as the loop of
`InputFileGenerator.write` (lines 469-480) visits them. -/
theorem claim_C1_required_resolution (format : String) (schema : List ReqEntry)
    (cfg : Config) (hnd : (schema.map ReqEntry.key).Nodup) :
    ((∀ e ∈ schema, EntryOk cfg e) →
      ∃ cfg2, resolveRequired format schema cfg = .ok cfg2 ∧
        (∀ e ∈ schema, ∀ v, lookupKey cfg e.key = some v →
          ∃ w, e.coerce v = some w ∧ lookupKey cfg2 e.key = some w) ∧
        (∀ k, (∀ e ∈ schema, e.key ≠ k) → lookupKey cfg2 k = lookupKey cfg k)) ∧
    (∀ pre e post, schema = pre ++ e :: post →
      (∀ e2 ∈ pre, EntryOk cfg e2) →
      lookupKey cfg e.key = none →
      resolveRequired format schema cfg =
        .error (.missingConfiguration format e.key)) ∧
    (∀ pre e post v, schema = pre ++ e :: post →
      (∀ e2 ∈ pre, EntryOk cfg e2) →
      lookupKey cfg e.key = some v → e.coerce v = none →
      resolveRequired format schema cfg =
        .error (.invalidConfigurationType e.key e.coerceName)) := by
  refine ⟨fun hok => resolveRequired_ok format schema cfg hnd hok, ?_, ?_⟩
  · intro pre e post hs hpre habs
    subst hs
    exact resolveRequired_missing format pre e post cfg hnd hpre habs
  · intro pre e post v hs hpre hv hbad
    subst hs
    exact resolveRequired_badCoerce format pre e post cfg v hnd hpre hv hbad

/-- Witness for C1: the SPECFEM backend's required schema at concrete
configurations.  A configuration with only `NPROC` fails naming the backend
and `NSTEP`; one whose `DT` is the string `"x"` fails naming `DT` and the
`float` coercion; a complete configuration resolves, coerces `DT` and
passes the unknown key `EXTRA` through untouched. -/
theorem claim_C1_witness :
    (resolveRequired "SPECFEM3D_CARTESIAN_9e2aad47d52f97"
        specfemRequiredConfiguration [("NPROC", Value.int 4)] =
      .error (.missingConfiguration "SPECFEM3D_CARTESIAN_9e2aad47d52f97" "NSTEP")) ∧
    (resolveRequired "SPECFEM3D_CARTESIAN_9e2aad47d52f97"
        specfemRequiredConfiguration
        [("NPROC", Value.int 4), ("NSTEP", Value.int 5000),
         ("DT", Value.str "x"), ("SIMULATION_TYPE", Value.int 1)] =
      .error (.invalidConfigurationType "DT" "float")) ∧
    (∃ cfg2, resolveRequired "SPECFEM3D_CARTESIAN_9e2aad47d52f97"
        specfemRequiredConfiguration
        [("NPROC", Value.int 4), ("NSTEP", Value.int 5000),
         ("DT", Value.float (1/20)), ("SIMULATION_TYPE", Value.int 1),
         ("EXTRA", Value.str "kept")] = .ok cfg2 ∧
      lookupKey cfg2 "DT" = some (Value.float (1/20)) ∧
      lookupKey cfg2 "EXTRA" = some (Value.str "kept")) := by
  have hnd : ((specfemRequiredConfiguration.map ReqEntry.key).Nodup) := by decide
  refine ⟨?_, ?_, ?_⟩
  · exact (claim_C1_required_resolution _ _ _ hnd).2.1
      [⟨"NPROC", "int", pyInt⟩] ⟨"NSTEP", "int", pyInt⟩
      [⟨"DT", "float", pyFloat⟩, ⟨"SIMULATION_TYPE", "int", pyInt⟩] rfl
      (by
        intro e2 he2
        rcases List.mem_singleton.mp he2 with rfl
        exact ⟨Value.int 4, Value.int 4, rfl, rfl⟩)
      rfl
  · exact (claim_C1_required_resolution _ _ _ hnd).2.2
      [⟨"NPROC", "int", pyInt⟩, ⟨"NSTEP", "int", pyInt⟩] ⟨"DT", "float", pyFloat⟩
      [⟨"SIMULATION_TYPE", "int", pyInt⟩] (Value.str "x") rfl
      (by
        intro e2 he2
        simp only [List.mem_cons, List.not_mem_nil, or_false] at he2
        rcases he2 with rfl | rfl
        · exact ⟨Value.int 4, Value.int 4, rfl, rfl⟩
        · exact ⟨Value.int 5000, Value.int 5000, rfl, rfl⟩)
      rfl (by with_unfolding_all rfl)
  · have hok : ∀ e ∈ specfemRequiredConfiguration,
        EntryOk [("NPROC", Value.int 4), ("NSTEP", Value.int 5000),
          ("DT", Value.float (1/20)), ("SIMULATION_TYPE", Value.int 1),
          ("EXTRA", Value.str "kept")] e := by
      intro e he
      simp only [specfemRequiredConfiguration, List.mem_cons,
        List.not_mem_nil, or_false] at he
      rcases he with rfl | rfl | rfl | rfl
      · exact ⟨Value.int 4, Value.int 4, rfl, rfl⟩
      · exact ⟨Value.int 5000, Value.int 5000, rfl, rfl⟩
      · exact ⟨Value.float (1/20), Value.float (1/20), rfl, rfl⟩
      · exact ⟨Value.int 1, Value.int 1, rfl, rfl⟩
    obtain ⟨cfg2, hres, hmaps, hpass⟩ :=
      (claim_C1_required_resolution _ _ _ hnd).1 hok
    refine ⟨cfg2, hres, ?_, ?_⟩
    · obtain ⟨w, hw, hl⟩ := hmaps ⟨"DT", "float", pyFloat⟩
        (by exact .tail _ (.tail _ (.head _))) (Value.float (1/20)) rfl
      have hw2 : pyFloat (Value.float (1/20)) = some w := hw
      rw [show pyFloat (Value.float (1/20)) = some (Value.float (1/20)) from rfl]
        at hw2
      cases hw2
      exact hl
    · exact (hpass "EXTRA" (by decide)).trans rfl

/-- C2: For every backend and every raw configuration, resolving the
configuration is idempotent: resolving the same raw input twice yields
equal resolved configurations; for each key of the default schema the
resolved value is the coercion applied to the caller-supplied value when
the key is present and to the schema default otherwise; and when every
coercion function maps its own output to itself (which holds for the
backends' schemas, `specfemDefault_coerce_idem`), re-resolving a resolved
configuration changes nothing -- a caller-supplied value overrides the
default exactly once.  This is the loop of `InputFileGenerator.write`
lines 483-492. -/
theorem claim_C2_default_resolution (schema : List DefEntry) (cfg : Config)
    (hnd : (schema.map DefEntry.key).Nodup) :
    (resolveDefaults schema cfg = resolveDefaults schema cfg) ∧
    ((∀ e ∈ schema, ∃ w, e.coerce ((lookupKey cfg e.key).getD e.default) = some w) →
      ∃ cfg2, resolveDefaults schema cfg = .ok cfg2 ∧
        (∀ e ∈ schema, ∀ w,
          e.coerce ((lookupKey cfg e.key).getD e.default) = some w →
          lookupKey cfg2 e.key = some w) ∧
        (∀ k, (∀ e ∈ schema, e.key ≠ k) → lookupKey cfg2 k = lookupKey cfg k)) ∧
    ((∀ e ∈ schema, ∀ v w, e.coerce v = some w → e.coerce w = some w) →
      ∀ cfg2, resolveDefaults schema cfg = .ok cfg2 →
        resolveDefaults schema cfg2 = .ok cfg2) := by
  refine ⟨rfl, fun hok => resolveDefaults_ok schema cfg hnd hok, ?_⟩
  intro hidem cfg2 hok2
  have hins := resolveDefaults_ok_inputs schema cfg cfg2 hnd hok2
  obtain ⟨cfg2b, hres, hmaps, hpass⟩ := resolveDefaults_ok schema cfg hnd hins
  rw [hok2] at hres
  cases hres
  apply resolveDefaults_fixed
  intro e he
  obtain ⟨w, hw⟩ := hins e he
  exact ⟨w, hmaps e he w hw, hidem e he _ w hw⟩

/-- Witness for C2: the SPECFEM backend's default schema on a configuration
supplying `SAVE_FORWARD` and the schema-free key `NPROC`.  Resolution
succeeds, keeps the caller's `SAVE_FORWARD`, fills the `NGNOD` default,
passes `NPROC` through, and resolving the result again returns it
unchanged. -/
theorem claim_C2_witness :
    ∃ cfg2, resolveDefaults specfemDefaultConfiguration
        [("SAVE_FORWARD", Value.bool true), ("NPROC", Value.int 4)] = .ok cfg2 ∧
      lookupKey cfg2 "SAVE_FORWARD" = some (Value.bool true) ∧
      lookupKey cfg2 "NGNOD" = some (Value.int 8) ∧
      lookupKey cfg2 "NPROC" = some (Value.int 4) ∧
      resolveDefaults specfemDefaultConfiguration cfg2 = .ok cfg2 := by
  have hnd : ((specfemDefaultConfiguration.map DefEntry.key).Nodup) := by decide
  have hsome : ∀ e ∈ specfemDefaultConfiguration,
      (e.coerce ((lookupKey [("SAVE_FORWARD", Value.bool true),
        ("NPROC", Value.int 4)] e.key).getD e.default)).isSome := by
    with_unfolding_all decide
  have hok : ∀ e ∈ specfemDefaultConfiguration,
      ∃ w, e.coerce ((lookupKey [("SAVE_FORWARD", Value.bool true),
        ("NPROC", Value.int 4)] e.key).getD e.default) = some w := by
    intro e he
    exact Option.isSome_iff_exists.mp (hsome e he)
  obtain ⟨cfg2, hres, hmaps, hpass⟩ :=
    (claim_C2_default_resolution specfemDefaultConfiguration _ hnd).2.1 hok
  refine ⟨cfg2, hres, ?_, ?_, ?_, ?_⟩
  · exact hmaps ⟨"SAVE_FORWARD", Value.bool false, "bool", pyBool⟩
      (by exact .tail _ (.head _)) (Value.bool true) rfl
  · exact hmaps ⟨"NGNOD", Value.int 8, "int", pyInt⟩
      (by exact .tail _ (.tail _ (.tail _ (.tail _ (.head _)))))
      (Value.int 8) rfl
  · exact (hpass "NPROC" (by decide)).trans rfl
  · exact (claim_C2_default_resolution specfemDefaultConfiguration _ hnd).2.2
      specfemDefault_coerce_idem cfg2 hres

/-- A fully valid SES3D configuration: the schema defaults of
`DEFAULT_CONFIGURATION` (write_ses3d_4_1.py lines 50-95) with concrete
values for the required keys. -/
def ses3dExampleConfig : Ses3dConfig :=
  { output_folder := "out"
    number_of_time_steps := 700
    time_increment_in_s := 13/100
    mesh_min_latitude := -90
    mesh_max_latitude := 90
    mesh_min_longitude := -180
    mesh_max_longitude := 180
    mesh_min_depth_in_km := 0
    mesh_max_depth_in_km := 100
    nx_global := 15
    ny_global := 15
    nz_global := 10
    px := 1
    py := 1
    pz := 1
    source_time_function := []
    event_tag := "1"
    is_dissipative := true
    stf_header := ["STF written by the wfs_input_generator",
      "    https://github.com/krischer/wfs_input_generator",
      "The original source of the STF is not known to the",
      "input generator module."]
    output_displacement := false
    displacement_snapshot_sampling := 10000
    lagrange_polynomial_degree := 4
    simulation_type := "normal simulation"
    adjoint_forward_sampling_rate := 15
    adjoint_forward_wavefield_output_folder := ""
    rotation_angle_in_degree := 0
    rotation_axis := [0, 0, 1]
    Q_model_relaxation_times := [17308/10000, 143961/10000, 229973/10000]
    Q_model_weights_of_relaxation_mechanisms :=
      [25100/10000, 24354/10000, 879/10000] }

/-- The event of the end-to-end scenario (§8 of the spec and the SPECFEM
backend test): isotropic moment tensor `1e16` on the diagonal. -/
def scenarioEvent : EventQ :=
  { latitude := 3926/100, longitude := 4104/100, depth_in_km := 5,
    origin_time := ⟨2012, 4, 12, 7, 15, 48, 500000⟩,
    m_rr := 10^16, m_tt := 10^16, m_pp := 10^16,
    m_rt := 0, m_rp := 0, m_tp := 0 }

/-- The same event moved to the equator/prime meridian, for the rotation
counterexamples. -/
def equatorEvent : EventQ := { scenarioEvent with latitude := 0, longitude := 0 }

theorem ses3dWrite_snd (cfg : Ses3dConfig) (events : List EventQ)
    (stations : List StationQ) :
    (ses3dWrite cfg events stations).2 =
      if cfg.stf_header.length > 4 then cfg
      else ses3dApplyConfigMutations cfg := by
  by_cases h : cfg.stf_header.length > 4 <;> simp [ses3dWrite, h]

theorem adjoint_folder_ne_empty (s : String) :
    s ++ "/ADJOINT_FORWARD_FIELD" ≠ "" := by
  intro h
  have h2 := congrArg String.length h
  rw [String.length_append] at h2
  rw [show ("/ADJOINT_FORWARD_FIELD" : String).length = 22 from rfl] at h2
  rw [show ("" : String).length = 0 from rfl] at h2
  omega

theorem ses3dApplyConfigMutations_stf (cfg : Ses3dConfig) :
    (ses3dApplyConfigMutations cfg).stf_header = cfg.stf_header := by
  unfold ses3dApplyConfigMutations
  by_cases h1 : cfg.adjoint_forward_wavefield_output_folder = "" <;>
    by_cases h2 : cfg.rotation_angle_in_degree ≠ 0 <;> simp [h1, h2]

theorem ses3dApplyConfigMutations_idem (cfg : Ses3dConfig)
    (h : cfg.rotation_angle_in_degree = 0) :
    ses3dApplyConfigMutations (ses3dApplyConfigMutations cfg) =
      ses3dApplyConfigMutations cfg := by
  unfold ses3dApplyConfigMutations
  by_cases h1 : cfg.adjoint_forward_wavefield_output_folder = "" <;>
    simp [h1, h, adjoint_folder_ne_empty]

/-- C4 (corrected): the SPECFEM backend works on a deep copy and leaves the
configuration object passed in unchanged, and the configuration a SES3D
render call leaves behind differs from the one passed in exactly by the two
in-place mutations of lines 112-120 (an empty adjoint output folder filled,
a nonzero rotation angle negated); when neither mutation fires the SES3D
configuration is also returned unchanged.  The claim's universal
"every key-value pair of the configuration object passed in is unchanged"
is refuted by `claim_C4_counterexample`. -/
theorem claim_C4_config_readonly :
    (∀ (magnitudeOf : ℚ → ℚ → ℚ → ℚ) (cfg : Config) (events : List EventQ)
        (stations : List StationQ),
      (specfemWriteSt magnitudeOf cfg events stations).2 = cfg) ∧
    (∀ (cfg : Ses3dConfig) (events : List EventQ) (stations : List StationQ),
      (ses3dWrite cfg events stations).2 =
        if cfg.stf_header.length > 4 then cfg
        else ses3dApplyConfigMutations cfg) ∧
    (∀ (cfg : Ses3dConfig) (events : List EventQ) (stations : List StationQ),
      cfg.adjoint_forward_wavefield_output_folder ≠ "" →
      cfg.rotation_angle_in_degree = 0 →
      (ses3dWrite cfg events stations).2 = cfg) := by
  refine ⟨fun _ _ _ _ => rfl, ses3dWrite_snd, ?_⟩
  intro cfg events stations ha hr
  rw [ses3dWrite_snd]
  have hmut : ses3dApplyConfigMutations cfg = cfg := by
    unfold ses3dApplyConfigMutations
    simp [ha, hr]
  by_cases h : cfg.stf_header.length > 4 <;> simp [h, hmut]

/-- Witness for C4's amended theorem at concrete inputs. -/
theorem claim_C4_witness :
    (specfemWriteSt (fun _ _ _ => 0) [] [] []).2 = [] ∧
    (ses3dWrite { ses3dExampleConfig with
        adjoint_forward_wavefield_output_folder := "adj" } [scenarioEvent] []).2 =
      { ses3dExampleConfig with
        adjoint_forward_wavefield_output_folder := "adj" } := by
  constructor
  · exact (claim_C4_config_readonly.1 (fun _ _ _ => 0) [] [] [])
  · apply claim_C4_config_readonly.2.2
    · decide
    · decide

/-- Counterexample to C4 as stated: the SES3D backend mutates the
configuration object passed in.  With the rotation angle `10` the returned
configuration carries `-10`, and with an empty adjoint output folder the
returned configuration carries the derived folder path; in both cases the
configuration after the call differs from the one passed in. -/
theorem claim_C4_counterexample :
    (ses3dWrite { ses3dExampleConfig with rotation_angle_in_degree := 10 }
        [equatorEvent] []).2.rotation_angle_in_degree = -10 ∧
    (ses3dWrite ses3dExampleConfig
        [scenarioEvent] []).2.adjoint_forward_wavefield_output_folder =
      "out/ADJOINT_FORWARD_FIELD" ∧
    (ses3dWrite { ses3dExampleConfig with rotation_angle_in_degree := 10 }
        [equatorEvent] []).2 ≠
      { ses3dExampleConfig with rotation_angle_in_degree := 10 } := by
  have h1 : (ses3dWrite { ses3dExampleConfig with rotation_angle_in_degree := 10 }
      [equatorEvent] []).2.rotation_angle_in_degree = -10 := by
    rw [ses3dWrite_snd]
    with_unfolding_all decide
  have h2 : (ses3dWrite ses3dExampleConfig
      [scenarioEvent] []).2.adjoint_forward_wavefield_output_folder =
        "out/ADJOINT_FORWARD_FIELD" := by
    rw [ses3dWrite_snd]
    with_unfolding_all decide
  refine ⟨h1, h2, ?_⟩
  intro h
  rw [h] at h1
  exact absurd h1 (by with_unfolding_all decide)

/-- C3 (corrected): a backend render call is byte-for-byte deterministic as
a function of the configuration value it receives.  The SPECFEM backend
deep-copies its configuration, so two successive calls sharing one
configuration object are byte-identical for all inputs; the SES3D backend
mutates its configuration object, but two successive sharing calls are
still byte-identical whenever no rotation is configured.  With a nonzero
rotation angle the second sharing call observes the negated angle and
produces different bytes (`claim_C3_counterexample`). -/
theorem claim_C3_render_determinism :
    (∀ (magnitudeOf : ℚ → ℚ → ℚ → ℚ) (cfg : Config) (events : List EventQ)
        (stations : List StationQ),
      (specfemWriteSt magnitudeOf
          (specfemWriteSt magnitudeOf cfg events stations).2 events stations).1 =
        (specfemWriteSt magnitudeOf cfg events stations).1) ∧
    (∀ (cfg : Ses3dConfig) (events : List EventQ) (stations : List StationQ),
      cfg.rotation_angle_in_degree = 0 →
      (ses3dWrite (ses3dWrite cfg events stations).2 events stations).1 =
        (ses3dWrite cfg events stations).1) := by
  refine ⟨fun _ _ _ _ => rfl, ?_⟩
  intro cfg events stations hrot
  rw [ses3dWrite_snd]
  by_cases h4 : cfg.stf_header.length > 4
  · simp [h4]
  · simp only [if_neg h4]
    show (ses3dWrite (ses3dApplyConfigMutations cfg) events stations).1 = _
    unfold ses3dWrite
    simp only [ses3dApplyConfigMutations_stf, if_neg h4,
      ses3dApplyConfigMutations_idem cfg hrot]

/-- Witness for C3's amended theorem at concrete inputs. -/
theorem claim_C3_witness :
    (specfemWriteSt (fun _ _ _ => 0)
        (specfemWriteSt (fun _ _ _ => 0) [] [] []).2 [] []).1 =
      (specfemWriteSt (fun _ _ _ => 0) [] [] []).1 ∧
    (ses3dWrite (ses3dWrite ses3dExampleConfig [scenarioEvent] []).2
        [scenarioEvent] []).1 =
      (ses3dWrite ses3dExampleConfig [scenarioEvent] []).1 :=
  ⟨claim_C3_render_determinism.1 (fun _ _ _ => 0) [] [] [],
   claim_C3_render_determinism.2 ses3dExampleConfig [scenarioEvent] [] rfl⟩

/-- Counterexample to C3 as stated: with a rotation angle of `10` degrees,
two successive calls to the SES3D `write` with the identical inputs (the
same configuration object, event and stations) both succeed yet produce
different bytes: the first call negates the stored angle in place, so the
second call rotates the event the other way and the two `event_1` files
differ. -/
theorem claim_C3_counterexample :
    ((ses3dWrite { ses3dExampleConfig with rotation_angle_in_degree := 10 }
        [equatorEvent] []).1).isOk = true ∧
    ((ses3dWrite (ses3dWrite { ses3dExampleConfig with
        rotation_angle_in_degree := 10 } [equatorEvent] []).2
        [equatorEvent] []).1).isOk = true ∧
    ((ses3dWrite (ses3dWrite { ses3dExampleConfig with
          rotation_angle_in_degree := 10 } [equatorEvent] []).2
        [equatorEvent] []).1.toOption.getD []).lookup "event_1" ≠
      ((ses3dWrite { ses3dExampleConfig with rotation_angle_in_degree := 10 }
          [equatorEvent] []).1.toOption.getD []).lookup "event_1" := by
  refine ⟨?_, ?_, ?_⟩ <;> with_unfolding_all decide

/-- C6: For every event rendered by a single-event moment-tensor backend,
the derived magnitude equals `(2/3)*log10(M0) - 6.0` with
`M0 = (1/sqrt 2) * sqrt(m_rr^2 + m_tt^2 + m_pp^2)`, computed from only the
three diagonal tensor components; and for the isotropic tensor with
`m_rr = m_tt = m_pp = 1.0e16` the derived magnitude rounded to one decimal
place equals `4.7` (i.e. ten times the magnitude rounds to the integer
`47`). -/
theorem claim_C6_magnitude :
    (∀ m_rr m_tt m_pp m_rt m_rp m_tp m_rt2 m_rp2 m_tp2 : ℝ,
      specfemMagnitudeSixR m_rr m_tt m_pp m_rt m_rp m_tp =
        specfemMagnitudeSixR m_rr m_tt m_pp m_rt2 m_rp2 m_tp2) ∧
    (specfemMagnitudeR 1e16 1e16 1e16 =
      2 / 3 * Real.logb 10 (specfemM0R 1e16 1e16 1e16) - 6) ∧
    round ((10 : ℝ) * specfemMagnitudeR 1e16 1e16 1e16) = 47 := by
  refine ⟨fun _ _ _ _ _ _ _ _ _ => rfl, rfl, ?_⟩
  have hsqrt15pos : (0 : ℝ) < Real.sqrt 1.5 := Real.sqrt_pos.mpr (by norm_num)
  have hM0 : specfemM0R 1e16 1e16 1e16 = 10 ^ (16 : ℕ) * Real.sqrt 1.5 := by
    unfold specfemM0R
    rw [show ((1e16 : ℝ)) ^ 2 + (1e16) ^ 2 + (1e16) ^ 2 = ((1e16 : ℝ) ^ 2) * 3
      by ring]
    rw [Real.sqrt_mul (by positivity) 3]
    rw [Real.sqrt_sq (by norm_num : (0 : ℝ) ≤ 1e16)]
    rw [show Real.sqrt 1.5 = Real.sqrt 3 / Real.sqrt 2 by
      rw [show (1.5 : ℝ) = 3 / 2 by norm_num,
        Real.sqrt_div (by norm_num : (0 : ℝ) ≤ 3)]]
    rw [show ((10 : ℝ) ^ (16 : ℕ)) = 1e16 by norm_num]
    have hsqrt2 : Real.sqrt 2 ≠ 0 := ne_of_gt (Real.sqrt_pos.mpr (by norm_num))
    field_simp
  have hl0 : 0 ≤ Real.logb 10 (Real.sqrt 1.5) := by
    refine Real.logb_nonneg (by norm_num) ?_
    rw [show (1 : ℝ) = Real.sqrt 1 from Real.sqrt_one.symm]
    exact Real.sqrt_le_sqrt (by norm_num)
  have hl1 : Real.logb 10 (Real.sqrt 1.5) < 1 / 8 := by
    rw [Real.logb_lt_iff_lt_rpow (by norm_num : (1 : ℝ) < 10) hsqrt15pos]
    have hy : (0 : ℝ) < (10 : ℝ) ^ ((1 : ℝ) / 8) :=
      Real.rpow_pos_of_pos (by norm_num) _
    rw [Real.sqrt_lt' hy]
    rw [show ((10 : ℝ) ^ ((1 : ℝ) / 8)) ^ (2 : ℕ) = 10 ^ ((1 : ℝ) / 4) by
      rw [← Real.rpow_natCast ((10 : ℝ) ^ ((1 : ℝ) / 8)) 2,
        ← Real.rpow_mul (by norm_num : (0 : ℝ) ≤ 10)]
      norm_num]
    by_contra hcon
    push_neg at hcon
    have h4 : ((10 : ℝ) ^ ((1 : ℝ) / 4)) ^ (4 : ℕ) ≤ (1.5 : ℝ) ^ (4 : ℕ) :=
      pow_le_pow_left₀ (le_of_lt (Real.rpow_pos_of_pos (by norm_num) _)) hcon 4
    rw [show ((10 : ℝ) ^ ((1 : ℝ) / 4)) ^ (4 : ℕ) = 10 by
      rw [← Real.rpow_natCast ((10 : ℝ) ^ ((1 : ℝ) / 4)) 4,
        ← Real.rpow_mul (by norm_num : (0 : ℝ) ≤ 10)]
      norm_num] at h4
    norm_num at h4
  have hL : Real.logb 10 (specfemM0R 1e16 1e16 1e16) =
      16 + Real.logb 10 (Real.sqrt 1.5) := by
    rw [hM0, Real.logb_mul (by positivity) (ne_of_gt hsqrt15pos), Real.logb_pow,
      Real.logb_self_eq_one (by norm_num)]
    norm_num
  unfold specfemMagnitudeR
  rw [hL, round_eq, Int.floor_eq_iff]
  constructor
  · push_cast
    nlinarith [hl0, hl1]
  · push_cast
    nlinarith [hl0, hl1]

/-- The two stations of the end-to-end scenario (§8 of the spec), in the
id-sorted order `InputFileGenerator.write` hands them to the backend; the
burial depth defaults to `0.0`. -/
def scenarioStations : List StationQ :=
  [⟨"KO.ADVT", 41, 331234/10000, 10, 0⟩,
   ⟨"KO.AFSR", 40, 332345/10000, 220, 0⟩]

/-- The caller-supplied configuration of the end-to-end scenario. -/
def specfemScenarioRawConfig : Config :=
  [("NPROC", Value.int 4), ("NSTEP", Value.int 5000),
   ("DT", Value.float (1/20)), ("SIMULATION_TYPE", Value.int 1)]

/-- The scenario configuration after resolution against the SPECFEM
schemas, as `InputFileGenerator.write` produces it. -/
def specfemScenarioConfig : Config :=
  (resolveConfiguration "SPECFEM3D_CARTESIAN_9e2aad47d52f97"
    specfemRequiredConfiguration specfemDefaultConfiguration
    specfemScenarioRawConfig).toOption.getD []

theorem specfemWrite_eq (magnitudeOf : ℚ → ℚ → ℚ → ℚ) (cfg : Config)
    (event : EventQ) (stations : List StationQ) (parStr : String)
    (parts : List String)
    (hpar : renderTemplate parFileTemplate (specfemFboolConfig cfg) = .ok parStr)
    (hst : specfemStationLines stations = .ok parts)
    (hm0 : ¬(event.m_rr = 0 ∧ event.m_tt = 0 ∧ event.m_pp = 0)) :
    specfemWrite magnitudeOf cfg [event] stations =
      .ok [("Par_file", parStr),
           ("CMTSOLUTION",
             specfemCMTSolution (magnitudeOf event.m_rr event.m_tt event.m_pp)
               event),
           ("STATIONS", String.intercalate "\n" parts)] := by
  simp only [specfemWrite, hpar, hst, if_neg hm0]

/-- C7: rendering the end-to-end scenario yields a STATIONS file that is
exactly the two claimed lines (station id split on the dot, coordinates to
5 decimals, elevation and burial depth to 1 decimal), and a CMTSOLUTION
file whose text after the magnitude-bearing first line is exactly the
claimed lines, the Mrr, Mtt and Mpp value fields reading `1e+23` (the
`1e16` N·m components scaled by `1e7` to dyne·cm and printed with
`%.6g`).  The statement holds for every derived-magnitude function, so it
does not depend on the float logarithm. -/
theorem claim_C7_end_to_end (magnitudeOf : ℚ → ℚ → ℚ → ℚ) :
    ∃ out, specfemWrite magnitudeOf specfemScenarioConfig [scenarioEvent]
        scenarioStations = .ok out ∧
      out.lookup "STATIONS" =
        some ("ADVT KO 41.00000 33.12340 10.0 0.0\n" ++
          "AFSR KO 40.00000 33.23450 220.0 0.0") ∧
      ∃ firstLine, out.lookup "CMTSOLUTION" =
        some (firstLine ++
          ("event name:      0000000\n" ++
           "time shift:       0.0000\n" ++
           "half duration:    0.0000\n" ++
           "latitude:       39.26000\n" ++
           "longitude:      41.04000\n" ++
           "depth:          5.00000\n" ++
           "Mrr:         1e+23\n" ++
           "Mtt:         1e+23\n" ++
           "Mpp:         1e+23\n" ++
           "Mrt:         0\n" ++
           "Mrp:         0\n" ++
           "Mtp:         0")) := by
  have hparOk : (renderTemplate parFileTemplate
      (specfemFboolConfig specfemScenarioConfig)).isOk = true := by
    with_unfolding_all decide
  obtain ⟨parStr, hpar⟩ : ∃ s, renderTemplate parFileTemplate
      (specfemFboolConfig specfemScenarioConfig) = .ok s := by
    cases h2 : renderTemplate parFileTemplate
        (specfemFboolConfig specfemScenarioConfig) with
    | error e => rw [h2] at hparOk; simp [Except.isOk, Except.toBool] at hparOk
    | ok s => exact ⟨s, rfl⟩
  have hst : specfemStationLines scenarioStations =
      .ok ["ADVT KO 41.00000 33.12340 10.0 0.0",
           "AFSR KO 40.00000 33.23450 220.0 0.0"] := by
    with_unfolding_all rfl
  refine ⟨_, specfemWrite_eq magnitudeOf specfemScenarioConfig scenarioEvent
    scenarioStations parStr _ hpar hst (by with_unfolding_all decide), ?_, ?_⟩
  · with_unfolding_all rfl
  · refine ⟨specfemCMTFirstLine
      (magnitudeOf scenarioEvent.m_rr scenarioEvent.m_tt scenarioEvent.m_pp)
      scenarioEvent ++ "\n", ?_⟩
    have hlook : List.lookup "CMTSOLUTION"
        [("Par_file", parStr),
         ("CMTSOLUTION",
           specfemCMTSolution
             (magnitudeOf scenarioEvent.m_rr scenarioEvent.m_tt
               scenarioEvent.m_pp) scenarioEvent),
         ("STATIONS",
           String.intercalate "\n"
             ["ADVT KO 41.00000 33.12340 10.0 0.0",
              "AFSR KO 40.00000 33.23450 220.0 0.0"])] =
        some (specfemCMTSolution
          (magnitudeOf scenarioEvent.m_rr scenarioEvent.m_tt
            scenarioEvent.m_pp) scenarioEvent) := rfl
    rw [hlook]
    show some (specfemCMTFirstLine _ _ ++ "\n" ++ specfemCMTBody scenarioEvent) = _
    rw [show specfemCMTBody scenarioEvent =
      ("event name:      0000000\n" ++
       "time shift:       0.0000\n" ++
       "half duration:    0.0000\n" ++
       "latitude:       39.26000\n" ++
       "longitude:      41.04000\n" ++
       "depth:          5.00000\n" ++
       "Mrr:         1e+23\n" ++
       "Mtt:         1e+23\n" ++
       "Mpp:         1e+23\n" ++
       "Mrt:         0\n" ++
       "Mrp:         0\n" ++
       "Mtp:         0") from by with_unfolding_all decide]

theorem ses3dApplyConfigMutations_rot (cfg : Ses3dConfig) :
    (ses3dApplyConfigMutations cfg).rotation_angle_in_degree =
      if cfg.rotation_angle_in_degree ≠ 0 then -cfg.rotation_angle_in_degree
      else cfg.rotation_angle_in_degree := by
  unfold ses3dApplyConfigMutations
  by_cases h1 : cfg.adjoint_forward_wavefield_output_folder = "" <;>
    by_cases h2 : cfg.rotation_angle_in_degree ≠ 0 <;> simp [h1, h2]

theorem ses3dRender_single_norot (cfg : Ses3dConfig) (event : EventQ)
    (stations : List StationQ) (sti : Int) (parts : List String)
    (hrot0 : cfg.rotation_angle_in_degree = 0)
    (hsim : ses3dSimulationTypeInt cfg.simulation_type = some sti)
    (hbnd : ses3dIsInBounds event.latitude event.longitude cfg = true)
    (hrec : ses3dRecfileParts cfg stations = some parts) :
    ses3dRender cfg [event] stations =
      .ok (([("setup", ses3dSetupFile cfg sti),
            ("event_" ++ cfg.event_tag,
              ses3dEventFile cfg event event.latitude event.longitude
                event.m_rr event.m_tt event.m_pp event.m_rt event.m_rp
                event.m_tp),
            ("event_list",
              padRightWith ' ' 44 (intDecimal 1) ++
                "! n_events = number of events\n" ++ cfg.event_tag),
            ("recfile_" ++ cfg.event_tag,
              String.intercalate "\n"
                (natToString (parts.length / 2) :: parts)),
            ("relax", ses3dRelaxFile cfg),
            ("stf", ses3dStfFile cfg)] : List (String × String)).map
          (fun kv => (kv.1, kv.2 ++ "\n\n"))) := by
  simp only [ses3dRender, hsim, hrot0, ne_eq, not_true_eq_false, ite_false,
    hbnd, if_true, hrec]

/-- C5 (corrected): both single-event backends raise exactly the
unsupported-event-count error for an event list of length other than one,
once the checks the source runs before the count check pass (SPECFEM
renders the Par_file first; SES3D checks the STF header and the simulation
type first).  With exactly one event, however, the SPECFEM backend
succeeds only when the moment magnitude is computable: for an event whose
three diagonal tensor components are all zero the scalar moment `M_0` is
`0.0` and `math.log10(M_0)` (line 362) raises `ValueError: math domain
error` instead of succeeding (see `claim_C5_counterexample`); with a
nonzero diagonal it succeeds once the station lines render.  The SES3D
backend succeeds with one event whenever the configuration is valid (no
mesh rotation configured, the event inside the mesh, the station loop
succeeding). -/
theorem claim_C5_single_event :
    (∀ (magnitudeOf : ℚ → ℚ → ℚ → ℚ) (cfg : Config) (events : List EventQ)
        (stations : List StationQ) (parStr : String),
      renderTemplate parFileTemplate (specfemFboolConfig cfg) = .ok parStr →
      events.length ≠ 1 →
      specfemWrite magnitudeOf cfg events stations =
        .error (.unsupportedEventCount
          "The SPECFEM backend can currently only deal with a single event.")) ∧
    (∀ (magnitudeOf : ℚ → ℚ → ℚ → ℚ) (cfg : Config) (event : EventQ)
        (stations : List StationQ) (parStr : String),
      renderTemplate parFileTemplate (specfemFboolConfig cfg) = .ok parStr →
      event.m_rr = 0 → event.m_tt = 0 → event.m_pp = 0 →
      specfemWrite magnitudeOf cfg [event] stations =
        .error (.valueError "math domain error")) ∧
    (∀ (magnitudeOf : ℚ → ℚ → ℚ → ℚ) (cfg : Config) (event : EventQ)
        (stations : List StationQ) (parStr : String) (parts : List String),
      renderTemplate parFileTemplate (specfemFboolConfig cfg) = .ok parStr →
      specfemStationLines stations = .ok parts →
      ¬(event.m_rr = 0 ∧ event.m_tt = 0 ∧ event.m_pp = 0) →
      ∃ out, specfemWrite magnitudeOf cfg [event] stations = .ok out) ∧
    (∀ (cfg : Ses3dConfig) (events : List EventQ) (stations : List StationQ)
        (sti : Int),
      ¬ cfg.stf_header.length > 4 →
      ses3dSimulationTypeInt
        (ses3dApplyConfigMutations cfg).simulation_type = some sti →
      events.length ≠ 1 →
      (ses3dWrite cfg events stations).1 =
        .error (.unsupportedEventCount
          "Exactly one event is required for SES3D 4.0.")) ∧
    (∀ (cfg : Ses3dConfig) (event : EventQ) (stations : List StationQ)
        (sti : Int) (parts : List String),
      ¬ cfg.stf_header.length > 4 →
      cfg.rotation_angle_in_degree = 0 →
      ses3dSimulationTypeInt
        (ses3dApplyConfigMutations cfg).simulation_type = some sti →
      ses3dIsInBounds event.latitude event.longitude
        (ses3dApplyConfigMutations cfg) = true →
      ses3dRecfileParts (ses3dApplyConfigMutations cfg) stations = some parts →
      ∃ out, (ses3dWrite cfg [event] stations).1 = .ok out) := by
  refine ⟨?_, ?_, ?_, ?_, ?_⟩
  · intro magnitudeOf cfg events stations parStr hpar hlen
    cases events with
    | nil => simp [specfemWrite, hpar]
    | cons a t =>
      cases t with
      | nil => simp at hlen
      | cons b t2 => simp [specfemWrite, hpar]
  · intro magnitudeOf cfg event stations parStr hpar h1 h2 h3
    simp [specfemWrite, hpar, h1, h2, h3]
  · intro magnitudeOf cfg event stations parStr parts hpar hst hm0
    exact ⟨_, specfemWrite_eq magnitudeOf cfg event stations parStr parts
      hpar hst hm0⟩
  · intro cfg events stations sti hstf hsim hlen
    cases events with
    | nil => simp [ses3dWrite, hstf, ses3dRender, hsim]
    | cons a t =>
      cases t with
      | nil => simp at hlen
      | cons b t2 => simp [ses3dWrite, hstf, ses3dRender, hsim]
  · intro cfg event stations sti parts hstf hrot hsim hbnd hrec
    have hrot0 : (ses3dApplyConfigMutations cfg).rotation_angle_in_degree = 0 := by
      rw [ses3dApplyConfigMutations_rot]
      simp [hrot]
    have h1 : (ses3dWrite cfg [event] stations).1 =
        ses3dRender (ses3dApplyConfigMutations cfg) [event] stations := by
      simp only [ses3dWrite, if_neg hstf]
    exact ⟨_, h1.trans (ses3dRender_single_norot _ event stations sti parts
      hrot0 hsim hbnd hrec)⟩

/-- Witness for C5's amended theorem at concrete inputs: the resolved
scenario configuration and example SES3D configuration, with zero, two and
one events, and the zero-moment single event that raises the math domain
error. -/
theorem claim_C5_witness :
    specfemWrite (fun _ _ _ => 0) specfemScenarioConfig [] scenarioStations =
      .error (.unsupportedEventCount
        "The SPECFEM backend can currently only deal with a single event.") ∧
    specfemWrite (fun _ _ _ => 0) specfemScenarioConfig
      [{ scenarioEvent with m_rr := 0, m_tt := 0, m_pp := 0 }]
      scenarioStations = .error (.valueError "math domain error") ∧
    (∃ out, specfemWrite (fun _ _ _ => 0) specfemScenarioConfig
      [scenarioEvent] scenarioStations = .ok out) ∧
    (ses3dWrite ses3dExampleConfig [scenarioEvent, scenarioEvent] []).1 =
      .error (.unsupportedEventCount
        "Exactly one event is required for SES3D 4.0.") ∧
    (∃ out, (ses3dWrite ses3dExampleConfig [scenarioEvent] []).1 = .ok out) := by
  have hparOk : (renderTemplate parFileTemplate
      (specfemFboolConfig specfemScenarioConfig)).isOk = true := by
    with_unfolding_all decide
  obtain ⟨parStr, hpar⟩ : ∃ s, renderTemplate parFileTemplate
      (specfemFboolConfig specfemScenarioConfig) = .ok s := by
    cases h2 : renderTemplate parFileTemplate
        (specfemFboolConfig specfemScenarioConfig) with
    | error e => rw [h2] at hparOk; simp [Except.isOk, Except.toBool] at hparOk
    | ok s => exact ⟨s, rfl⟩
  refine ⟨?_, ?_, ?_, ?_, ?_⟩
  · exact claim_C5_single_event.1 (fun _ _ _ => 0) specfemScenarioConfig []
      scenarioStations parStr hpar (by decide)
  · exact claim_C5_single_event.2.1 (fun _ _ _ => 0) specfemScenarioConfig
      { scenarioEvent with m_rr := 0, m_tt := 0, m_pp := 0 }
      scenarioStations parStr hpar rfl rfl rfl
  · exact claim_C5_single_event.2.2.1 (fun _ _ _ => 0) specfemScenarioConfig
      scenarioEvent scenarioStations parStr
      ["ADVT KO 41.00000 33.12340 10.0 0.0",
       "AFSR KO 40.00000 33.23450 220.0 0.0"]
      hpar (by with_unfolding_all rfl) (by with_unfolding_all decide)
  · exact claim_C5_single_event.2.2.2.1 ses3dExampleConfig
      [scenarioEvent, scenarioEvent] [] 0 (by decide)
      (by with_unfolding_all rfl) (by decide)
  · exact claim_C5_single_event.2.2.2.2 ses3dExampleConfig scenarioEvent [] 0 []
      (by decide) (by with_unfolding_all rfl) (by with_unfolding_all rfl)
      (by with_unfolding_all decide) (by with_unfolding_all rfl)

/-- Counterexample to C5 as stated: with the fully valid resolved scenario
configuration and stations, a single event whose diagonal moment-tensor
components are all zero does not succeed: the scalar moment `M_0` is `0.0`
and `math.log10` raises `ValueError: math domain error` (line 362), an
error that is neither success nor the unsupported-event-count error. -/
theorem claim_C5_counterexample :
    specfemWrite (fun _ _ _ => 0) specfemScenarioConfig
      [{ scenarioEvent with m_rr := 0, m_tt := 0, m_pp := 0 }]
      scenarioStations = .error (.valueError "math domain error") := by
  with_unfolding_all rfl

theorem uniqueListAux_append_mem {α : Type} [DecidableEq α] (x : α) :
    ∀ (l seen : List α), x ∈ l ∨ x ∈ seen →
      uniqueListAux seen (l ++ [x]) = uniqueListAux seen l := by
  intro l
  induction l with
  | nil =>
    intro seen h
    simp only [List.not_mem_nil, false_or] at h
    simp [uniqueListAux, h]
  | cons y ys ih =>
    intro seen h
    by_cases hy : y ∈ seen
    · simp only [List.cons_append, uniqueListAux, if_pos hy]
      apply ih
      rcases h with h | h
      · rcases List.mem_cons.mp h with rfl | h2
        · exact Or.inr hy
        · exact Or.inl h2
      · exact Or.inr h
    · simp only [List.cons_append, uniqueListAux, if_neg hy]
      simp only [List.append_eq]
      rw [ih]
      rcases h with h | h
      · rcases List.mem_cons.mp h with rfl | h2
        · exact Or.inr (List.mem_cons_self _ _)
        · exact Or.inl h2
      · exact Or.inr (List.mem_cons_of_mem _ h)

theorem uniqueList_append_mem {α : Type} [DecidableEq α] (l : List α) (x : α)
    (h : x ∈ l) : uniqueList (l ++ [x]) = uniqueList l :=
  uniqueListAux_append_mem x l [] (Or.inl h)

/-- C8 (corrected): within one `add_stations` call the per-call dictionary
keyed by station id makes the last-added record win: collecting two
dictionaries sharing an id leaves exactly the later record (normalized).
Across successive calls, only a record equal in all fields to an
already-collected one is dropped (`unique_list` deduplicates whole
records, keeping first occurrences); two records sharing an id but
differing in another field both stay, refuting the claim's "in any way"
(see `claim_C8_counterexample`). -/
theorem claim_C8_station_dedup :
    (∀ (d1 d2 : Config) (p1 p2 : StationPre),
      processStationDict d1 = .ok p1 → processStationDict d2 = .ok p2 →
      p1.id = p2.id →
      addStationsDicts [] [d1, d2] = .ok [finalizeStation p2]) ∧
    (∀ (stations : List StationQ) (d : Config) (p : StationPre),
      processStationDict d = .ok p → finalizeStation p ∈ stations →
      addStationsDicts stations [d] = .ok (uniqueList stations)) := by
  constructor
  · intro d1 d2 p1 p2 hp1 hp2 hid
    simp [addStationsDicts, collectStationDicts, collectStationDictsAux,
      insertStationPre, hp1, hp2, hid, uniqueList, uniqueListAux]
  · intro stations d p hp hmem
    simp only [addStationsDicts, collectStationDicts, collectStationDictsAux,
      insertStationPre, hp, List.map_cons, List.map_nil]
    rw [uniqueList_append_mem stations (finalizeStation p) hmem]

/-- Witness for C8's amended theorem at concrete station dictionaries. -/
theorem claim_C8_witness :
    addStationsDicts []
      [[("id", Value.str "XX.A"), ("latitude", Value.float 1),
        ("longitude", Value.float 2), ("elevation_in_m", Value.float 3)],
       [("id", Value.str "XX.A"), ("latitude", Value.float 9),
        ("longitude", Value.float 2), ("elevation_in_m", Value.float 3)]] =
      .ok [finalizeStation ⟨"XX.A", 9, 2, 3, none⟩] ∧
    addStationsDicts [⟨"YY.B", 1, 2, 3, 0⟩]
      [[("id", Value.str "YY.B"), ("latitude", Value.float 1),
        ("longitude", Value.float 2), ("elevation_in_m", Value.float 3)]] =
      .ok (uniqueList [⟨"YY.B", 1, 2, 3, 0⟩]) := by
  constructor
  · exact claim_C8_station_dedup.1 _ _ ⟨"XX.A", 1, 2, 3, none⟩
      ⟨"XX.A", 9, 2, 3, none⟩ (by with_unfolding_all rfl)
      (by with_unfolding_all rfl) rfl
  · exact claim_C8_station_dedup.2 _ _ ⟨"YY.B", 1, 2, 3, none⟩
      (by with_unfolding_all rfl) (by with_unfolding_all decide)

/-- Counterexample to C8 as stated: across two successive `add_stations`
calls, a record sharing its id with an already-collected one but differing
in the latitude is appended, leaving two records with that id, the earlier
one first; the collected set is not keyed by id across calls. -/
theorem claim_C8_counterexample :
    addStationsDicts []
      [[("id", Value.str "XX.A"), ("latitude", Value.float 1),
        ("longitude", Value.float 2), ("elevation_in_m", Value.float 3)]] =
      .ok [⟨"XX.A", 1, 2, 3, 0⟩] ∧
    addStationsDicts [⟨"XX.A", 1, 2, 3, 0⟩]
      [[("id", Value.str "XX.A"), ("latitude", Value.float 9),
        ("longitude", Value.float 2), ("elevation_in_m", Value.float 3)]] =
      .ok [⟨"XX.A", 1, 2, 3, 0⟩, ⟨"XX.A", 9, 2, 3, 0⟩] ∧
    (⟨"XX.A", 1, 2, 3, 0⟩ : StationQ).id = (⟨"XX.A", 9, 2, 3, 0⟩ : StationQ).id ∧
    (⟨"XX.A", 1, 2, 3, 0⟩ : StationQ) ≠ ⟨"XX.A", 9, 2, 3, 0⟩ := by
  refine ⟨by with_unfolding_all rfl, by with_unfolding_all rfl, rfl,
    by with_unfolding_all decide⟩

/-- C9 (corrected): an accepted station dictionary keeps its
`local_depth_in_m` exactly when the `float` coercion succeeds, and the
normalized record's local depth is the coerced value when kept and `0.0`
otherwise — so the default is applied both when the field is absent and
when its coercion fails (the bare `try/except: pass` of lines 241-245
silently drops an uncoercible value instead of rejecting the record, see
`claim_C9_counterexample`).  A required field whose coercion fails does
reject the dictionary. -/
theorem claim_C9_local_depth :
    (∀ (d : Config) (p : StationPre),
      processStationDict d = .ok p →
      p.local_depth_in_m = (lookupKey d "local_depth_in_m").bind pyFloatQ ∧
      (finalizeStation p).local_depth_in_m =
        ((lookupKey d "local_depth_in_m").bind pyFloatQ).getD 0) ∧
    (∀ (d : Config) (vlat vlng velev vid : Value),
      lookupKey d "latitude" = some vlat →
      lookupKey d "longitude" = some vlng →
      lookupKey d "elevation_in_m" = some velev →
      lookupKey d "id" = some vid →
      pyFloatQ vlat = none →
      processStationDict d = .error "could not convert string to float") := by
  constructor
  · intro d p hp
    unfold processStationDict at hp
    split at hp
    · split at hp
      · injection hp with h
        subst h
        exact ⟨rfl, rfl⟩
      · exact Except.noConfusion hp
    · exact Except.noConfusion hp
  · intro d vlat vlng velev vid h1 h2 h3 h4 hbad
    cases hlng : pyFloatQ vlng <;> cases helev : pyFloatQ velev <;>
      simp [processStationDict, h1, h2, h3, h4, hbad, hlng, helev]

/-- Witness for C9's amended theorem at concrete dictionaries: a station
dictionary with `local_depth_in_m = "abc"` (uncoercible, value dropped and
defaulted), and one with `latitude = "abc"` (required field, rejected). -/
theorem claim_C9_witness :
    ((⟨"XX.A", 1, 2, 3, none⟩ : StationPre).local_depth_in_m =
      (lookupKey
        [("id", Value.str "XX.A"), ("latitude", Value.float 1),
         ("longitude", Value.float 2), ("elevation_in_m", Value.float 3),
         ("local_depth_in_m", Value.str "abc")]
        "local_depth_in_m").bind pyFloatQ ∧
     (finalizeStation ⟨"XX.A", 1, 2, 3, none⟩).local_depth_in_m =
      ((lookupKey
        [("id", Value.str "XX.A"), ("latitude", Value.float 1),
         ("longitude", Value.float 2), ("elevation_in_m", Value.float 3),
         ("local_depth_in_m", Value.str "abc")]
        "local_depth_in_m").bind pyFloatQ).getD 0) ∧
    processStationDict
      [("id", Value.str "A"), ("latitude", Value.str "abc"),
       ("longitude", Value.float 2), ("elevation_in_m", Value.float 3)] =
      .error "could not convert string to float" := by
  constructor
  · exact claim_C9_local_depth.1 _ ⟨"XX.A", 1, 2, 3, none⟩
      (by with_unfolding_all rfl)
  · exact claim_C9_local_depth.2 _ (Value.str "abc") (Value.float 2)
      (Value.float 3) (Value.str "A") rfl rfl rfl rfl
      (by with_unfolding_all rfl)

/-- Counterexample to C9 as stated: a station dictionary whose
`local_depth_in_m` value `"abc"` fails `float` coercion is not rejected;
the record is accepted and its local depth silently defaults to `0.0`. -/
theorem claim_C9_counterexample :
    lookupKey
      [("id", Value.str "XX.A"), ("latitude", Value.float 1),
       ("longitude", Value.float 2), ("elevation_in_m", Value.float 3),
       ("local_depth_in_m", Value.str "abc")] "local_depth_in_m" =
      some (Value.str "abc") ∧
    pyFloatQ (Value.str "abc") = none ∧
    addStationsDicts []
      [[("id", Value.str "XX.A"), ("latitude", Value.float 1),
        ("longitude", Value.float 2), ("elevation_in_m", Value.float 3),
        ("local_depth_in_m", Value.str "abc")]] =
      .ok [⟨"XX.A", 1, 2, 3, 0⟩] := by
  refine ⟨by with_unfolding_all rfl, by with_unfolding_all rfl,
    by with_unfolding_all rfl⟩

theorem insertSortedById_perm (x : StationQ) (l : List StationQ) :
    (insertSortedById x l).Perm (x :: l) := by
  induction l with
  | nil => exact List.Perm.refl _
  | cons y ys ih =>
    unfold insertSortedById
    by_cases h : x.id < y.id
    · rw [if_pos h]
    · rw [if_neg h]
      exact (ih.cons y).trans (List.Perm.swap x y ys)

theorem insertSortedById_sorted (x : StationQ) (l : List StationQ)
    (h : List.Pairwise (fun a b => a.id ≤ b.id) l) :
    List.Pairwise (fun a b => a.id ≤ b.id) (insertSortedById x l) := by
  induction l with
  | nil => simp [insertSortedById]
  | cons y ys ih =>
    cases h with
    | cons hy hys =>
      unfold insertSortedById
      by_cases hlt : x.id < y.id
      · rw [if_pos hlt]
        constructor
        · intro b hb
          rcases List.mem_cons.mp hb with rfl | hb2
          · exact le_of_lt hlt
          · exact le_trans (le_of_lt hlt) (hy b hb2)
        · exact List.Pairwise.cons hy hys
      · rw [if_neg hlt]
        constructor
        · intro b hb
          have hmem : b ∈ x :: ys := (insertSortedById_perm x ys).mem_iff.mp hb
          rcases List.mem_cons.mp hmem with rfl | hb2
          · exact le_of_not_lt hlt
          · exact hy b hb2
        · exact ih hys

theorem sortStationsById_core (l : List StationQ) : ∀ (acc : List StationQ),
    (l.foldl (fun acc x => insertSortedById x acc) acc).Perm (acc ++ l) ∧
    (List.Pairwise (fun a b => a.id ≤ b.id) acc →
      List.Pairwise (fun a b => a.id ≤ b.id)
        (l.foldl (fun acc x => insertSortedById x acc) acc)) := by
  induction l with
  | nil =>
    intro acc
    constructor
    · simp only [List.foldl_nil, List.append_nil]
      exact List.Perm.refl acc
    · intro h
      simp only [List.foldl_nil]
      exact h
  | cons x xs ih =>
    intro acc
    constructor
    · have h1 := (ih (insertSortedById x acc)).1
      have h2 : (insertSortedById x acc ++ xs).Perm ((x :: acc) ++ xs) :=
        (insertSortedById_perm x acc).append_right xs
      have h3 : ((x :: acc) ++ xs).Perm (acc ++ x :: xs) := by
        rw [List.cons_append]
        exact List.perm_middle.symm
      exact (h1.trans (h2.trans h3))
    · intro hacc
      exact (ih (insertSortedById x acc)).2 (insertSortedById_sorted x acc hacc)

theorem sortStationsById_perm (l : List StationQ) :
    (sortStationsById l).Perm l := by
  have h := (sortStationsById_core l []).1
  simpa [sortStationsById] using h

theorem sortStationsById_sorted (l : List StationQ) :
    List.Pairwise (fun a b => a.id ≤ b.id) (sortStationsById l) :=
  (sortStationsById_core l []).2 (by simp)

theorem uniqueListAux_nodup {α : Type} [DecidableEq α] :
    ∀ (l seen : List α),
      (uniqueListAux seen l).Nodup ∧ ∀ x ∈ uniqueListAux seen l, x ∉ seen := by
  intro l
  induction l with
  | nil =>
    intro seen
    refine ⟨List.nodup_nil, ?_⟩
    intro x hx
    cases hx
  | cons y ys ih =>
    intro seen
    by_cases hy : y ∈ seen
    · simp only [uniqueListAux, if_pos hy]
      exact ih seen
    · simp only [uniqueListAux, if_neg hy]
      obtain ⟨hnd, hnin⟩ := ih (y :: seen)
      constructor
      · refine List.nodup_cons.mpr ⟨?_, hnd⟩
        intro hmem
        exact hnin y hmem (List.mem_cons_self _ _)
      · intro x hx
        rcases List.mem_cons.mp hx with rfl | hx2
        · exact hy
        · intro hxseen
          exact hnin x hx2 (List.mem_cons_of_mem _ hxseen)

theorem uniqueList_nodup {α : Type} [DecidableEq α] (l : List α) :
    (uniqueList l).Nodup :=
  (uniqueListAux_nodup l []).1

theorem uniqueListAux_eq_self {α : Type} [DecidableEq α] :
    ∀ (l seen : List α), l.Nodup → (∀ x ∈ l, x ∉ seen) →
      uniqueListAux seen l = l := by
  intro l
  induction l with
  | nil => intro seen _ _; rfl
  | cons y ys ih =>
    intro seen hnd hdisj
    have hy : y ∉ seen := hdisj y (List.mem_cons_self _ _)
    simp only [uniqueListAux, if_neg hy]
    congr 1
    refine ih (y :: seen) (List.nodup_cons.mp hnd).2 ?_
    intro x hx hmem
    rcases List.mem_cons.mp hmem with rfl | h2
    · exact (List.nodup_cons.mp hnd).1 hx
    · exact hdisj x (List.mem_cons_of_mem _ hx) h2

theorem uniqueList_eq_self {α : Type} [DecidableEq α] (l : List α)
    (h : l.Nodup) : uniqueList l = l :=
  uniqueListAux_eq_self l [] h (by simp)

/-- C10 (corrected): the station list handed to the backend renderer is
deduplicated (no two equal records) and sorted ascending by the station id
string; and when no two collected records share an id, it is independent
of the order in which the stations were added.  The claim's unconditional
order-independence is refuted by `claim_C10_counterexample`: two distinct
records sharing an id both survive deduplication, and Python's stable sort
keeps them in insertion order, so the rendered line order still depends on
the addition order. -/
theorem claim_C10_station_order :
    (∀ l : List StationQ,
      List.Pairwise (fun a b => a.id ≤ b.id) (writeStationPrep l)) ∧
    (∀ l : List StationQ, (writeStationPrep l).Nodup) ∧
    (∀ l₁ l₂ : List StationQ, l₁.Perm l₂ →
      (l₁.map StationQ.id).Nodup →
      writeStationPrep l₁ = writeStationPrep l₂) := by
  refine ⟨?_, ?_, ?_⟩
  · intro l
    exact sortStationsById_sorted (uniqueList l)
  · intro l
    exact (sortStationsById_perm (uniqueList l)).nodup_iff.mpr
      (uniqueList_nodup l)
  · intro l₁ l₂ hperm hids1
    have hids2 : (l₂.map StationQ.id).Nodup :=
      (hperm.map StationQ.id).nodup_iff.mp hids1
    have hnd1 : l₁.Nodup := List.Nodup.of_map StationQ.id hids1
    have hnd2 : l₂.Nodup := List.Nodup.of_map StationQ.id hids2
    rw [writeStationPrep, writeStationPrep, uniqueList_eq_self l₁ hnd1,
      uniqueList_eq_self l₂ hnd2]
    have hp : (sortStationsById l₁).Perm (sortStationsById l₂) :=
      (sortStationsById_perm l₁).trans
        (hperm.trans (sortStationsById_perm l₂).symm)
    have hidsort1 : ((sortStationsById l₁).map StationQ.id).Nodup :=
      ((sortStationsById_perm l₁).map StationQ.id).nodup_iff.mpr hids1
    have hidsort2 : ((sortStationsById l₂).map StationQ.id).Nodup :=
      ((sortStationsById_perm l₂).map StationQ.id).nodup_iff.mpr hids2
    have hne1 : List.Pairwise (fun a b : StationQ => a.id ≠ b.id)
        (sortStationsById l₁) := List.pairwise_map.mp hidsort1
    have hne2 : List.Pairwise (fun a b : StationQ => a.id ≠ b.id)
        (sortStationsById l₂) := List.pairwise_map.mp hidsort2
    have hlt1 : List.Pairwise (fun a b : StationQ => a.id < b.id)
        (sortStationsById l₁) :=
      ((sortStationsById_sorted l₁).and hne1).imp
        (fun h => lt_of_le_of_ne h.1 h.2)
    have hlt2 : List.Pairwise (fun a b : StationQ => a.id < b.id)
        (sortStationsById l₂) :=
      ((sortStationsById_sorted l₂).and hne2).imp
        (fun h => lt_of_le_of_ne h.1 h.2)
    haveI : IsAntisymm StationQ (fun a b => a.id < b.id) :=
      ⟨fun a b h1 h2 => absurd (lt_trans h1 h2) (lt_irrefl _)⟩
    exact List.eq_of_perm_of_sorted hp hlt1 hlt2

/-- Witness for C10's amended theorem at concrete station lists. -/
theorem claim_C10_witness :
    List.Pairwise (fun a b => a.id ≤ b.id)
      (writeStationPrep [⟨"B", 1, 2, 3, 0⟩, ⟨"A", 1, 2, 3, 0⟩]) ∧
    (writeStationPrep [⟨"B", 1, 2, 3, 0⟩, ⟨"A", 1, 2, 3, 0⟩]).Nodup ∧
    writeStationPrep [⟨"B", 1, 2, 3, 0⟩, ⟨"A", 1, 2, 3, 0⟩] =
      writeStationPrep [⟨"A", 1, 2, 3, 0⟩, ⟨"B", 1, 2, 3, 0⟩] := by
  refine ⟨claim_C10_station_order.1 _, claim_C10_station_order.2.1 _,
    claim_C10_station_order.2.2 _ _ (List.Perm.swap _ _ _) ?_⟩
  with_unfolding_all decide

/-- Counterexample to C10 as stated: two distinct records sharing the id
`"A"` both survive deduplication, and the stable sort keeps them in
insertion order, so the station list handed to the renderer (and hence the
order of station lines in the rendered output) depends on the order in
which the stations were added, not on the ids alone. -/
theorem claim_C10_counterexample :
    ([⟨"A", 1, 2, 3, 0⟩, ⟨"A", 9, 2, 3, 0⟩] : List StationQ).Perm
      [⟨"A", 9, 2, 3, 0⟩, ⟨"A", 1, 2, 3, 0⟩] ∧
    writeStationPrep [⟨"A", 1, 2, 3, 0⟩, ⟨"A", 9, 2, 3, 0⟩] ≠
      writeStationPrep [⟨"A", 9, 2, 3, 0⟩, ⟨"A", 1, 2, 3, 0⟩] := by
  constructor
  · exact List.Perm.swap _ _ _
  · with_unfolding_all decide
